import Mathlib

/-!
# Verification of the go-xiaozhi protocol gateway

A shallow embedding, in Lean 4, of the core of the `go-xiaozhi` WebSocket
gateway: the JSON codecs of the upstream (OpenAI-style realtime) protocol,
the device (xiaozhi) protocol events, the cubic-spline PCM resampler, the
audio transcoder's chunking loop, and the translator's event handlers.

Modelling conventions, used throughout:

* Go byte slices are `List ℕ` (each entry a byte value), Go strings are
  `String`, Go `int`/`int64` are `ℤ`, Go `uint64` counters are `ℕ`
  (the resampler's counters advance by at most the buffer length per call,
  so `uint64` overflow is unreachable and no `% 2^64` is carried).
* Go `float64` position arithmetic in the resampler is modelled over `ℚ`;
  `float64(uint64(x))` for `x ≥ 0` is rational truncation, i.e. `Rat.floor`.
* Fallible Go code returns `Except String`; a Go runtime panic (nil
  dereference, index out of range) is modelled as an `Except`-error carrying
  a `"panic: ..."` message, and loops use explicit fuel so that every
  definition is structurally recursive and executable by `rfl`/`decide`.
* JSON documents are modelled by the inductive `Json` below; `encoding/json`
  marshalling of the repository's structs is embedded field by field,
  following the struct tags (`omitempty` included) in the Go source.
-/

/-- A JSON document.  Objects keep their fields in written order; numbers are
rationals (every JSON numeral denotes a rational, and the repository never
relies on float formatting). -/
inductive Json where
  | null : Json
  | bool : Bool → Json
  | num : ℚ → Json
  | str : String → Json
  | arr : List Json → Json
  | obj : List (String × Json) → Json

/-- First-match field lookup in an object's field list.  The objects produced
by the embedded marshallers carry each key once, so first-match agrees with
Go's last-wins duplicate handling on every value the proofs touch. -/
def jget : List (String × Json) → String → Option Json
  | [], _ => none
  | (k', v) :: rest, k => if k' = k then some v else jget rest k

/-- One optional field of an object under construction: present (`some`) or
omitted (`none`, the `omitempty` case). -/
def ofield (k : String) (v : Option Json) : List (String × Json) :=
  match v with
  | none => []
  | some j => [(k, j)]

@[simp] theorem jget_nil (k : String) : jget [] k = none := rfl

@[simp] theorem jget_ofield_ne (k k' : String) (v : Option Json)
    (rest : List (String × Json)) (h : k' ≠ k) :
    jget (ofield k v ++ rest) k' = jget rest k' := by
  cases v with
  | none => rfl
  | some j => simp [ofield, jget, Ne.symm h]

@[simp] theorem jget_ofield_self (k : String) (v : Option Json)
    (rest : List (String × Json)) (h : jget rest k = none) :
    jget (ofield k v ++ rest) k = v := by
  cases v with
  | none => simpa [ofield]
  | some j => simp [ofield, jget]

@[simp] theorem jget_ofield_last_ne (k k' : String) (v : Option Json) (h : k' ≠ k) :
    jget (ofield k v) k' = none := by
  cases v with
  | none => rfl
  | some j => simp [ofield, jget, Ne.symm h]

@[simp] theorem jget_ofield_last_self (k : String) (v : Option Json) :
    jget (ofield k v) k = v := by
  cases v with
  | none => rfl
  | some j => simp [ofield, jget]

/-! ## Field codecs

Each Go struct field is embedded as a pair (encoder into an optional JSON
field, decoder from an optional JSON field).  The decoders follow
`encoding/json`: a missing key or an explicit `null` leaves the zero value,
a type mismatch is an error. -/

def encStr (s : String) : Option Json := some (.str s)

/-- `string` field with `omitempty`. -/
def encStrO (s : String) : Option Json := if s = "" then none else some (.str s)

def decStr : Option Json → Except String String
  | none => .ok ""
  | some .null => .ok ""
  | some (.str s) => .ok s
  | some _ => .error "cannot unmarshal into string"

def encInt (n : ℤ) : Option Json := some (.num (n : ℚ))

/-- `int` field with `omitempty`. -/
def encIntO (n : ℤ) : Option Json := if n = 0 then none else some (.num (n : ℚ))

def decInt : Option Json → Except String ℤ
  | none => .ok 0
  | some .null => .ok 0
  | some (.num q) => if q.den = 1 then .ok q.num else .error "cannot unmarshal into int"
  | some _ => .error "cannot unmarshal into int"

def encQ (q : ℚ) : Option Json := some (.num q)

/-- float field with `omitempty`. -/
def encQO (q : ℚ) : Option Json := if q = 0 then none else some (.num q)

def decQ : Option Json → Except String ℚ
  | none => .ok 0
  | some .null => .ok 0
  | some (.num q) => .ok q
  | some _ => .error "cannot unmarshal into float"

/-- `*string` field with `omitempty`: `nil` is omitted. -/
def encOptStr (s : Option String) : Option Json := s.map .str

def decOptStr : Option Json → Except String (Option String)
  | none => .ok none
  | some .null => .ok none
  | some (.str s) => .ok (some s)
  | some _ => .error "cannot unmarshal into *string"

/-- Pointer-to-struct field with `omitempty`: `nil` is omitted. -/
def encOptWith (f : α → Json) (v : Option α) : Option Json := v.map f

def decOptWith (g : Json → Except String α) : Option Json → Except String (Option α)
  | none => .ok none
  | some .null => .ok none
  | some j => (g j).map some

@[simp] theorem encOptWith_none (f : α → Json) : encOptWith f none = none := rfl

@[simp] theorem decOptWith_none (g : Json → Except String α) :
    decOptWith g none = .ok none := rfl

/-- Slice field with `omitempty`: empty is omitted.  (Go distinguishes a nil
slice from an empty one; `List` conflates them, and `omitempty` treats both
as empty.) -/
def encListO (f : α → Json) (l : List α) : Option Json :=
  if l.isEmpty then none else some (.arr (l.map f))

/-- Slice field without `omitempty`.  (A nil Go slice marshals as `null`;
the model always emits an array, and the decoder maps both `null` and `[]`
back to the empty list, so the conflation is invisible to round-trips.) -/
def encList (f : α → Json) (l : List α) : Option Json := some (.arr (l.map f))

/-- Decode the elements of a JSON array in order, propagating the first
error, as `encoding/json` does for a slice. -/
def decodeArr (g : Json → Except String α) : List Json → Except String (List α)
  | [] => .ok []
  | j :: rest => (g j).bind fun a => (decodeArr g rest).map fun as => a :: as

def decListWith (g : Json → Except String α) : Option Json → Except String (List α)
  | none => .ok []
  | some .null => .ok []
  | some (.arr xs) => decodeArr g xs
  | some _ => .error "cannot unmarshal into slice"

/-! ### Round-trip lemmas for the field codecs -/

@[simp] theorem decStr_encStr (s : String) : decStr (encStr s) = .ok s := rfl

@[simp] theorem decStr_encStrO (s : String) : decStr (encStrO s) = .ok s := by
  by_cases h : s = "" <;> simp [encStrO, decStr, h]

@[simp] theorem decInt_encInt (n : ℤ) : decInt (encInt n) = .ok n := by
  simp [encInt, decInt]

@[simp] theorem decInt_encIntO (n : ℤ) : decInt (encIntO n) = .ok n := by
  by_cases h : n = 0 <;> simp [encIntO, decInt, h]

@[simp] theorem decQ_encQ (q : ℚ) : decQ (encQ q) = .ok q := rfl

@[simp] theorem decQ_encQO (q : ℚ) : decQ (encQO q) = .ok q := by
  by_cases h : q = 0 <;> simp [encQO, decQ, h]

@[simp] theorem decOptStr_encOptStr (s : Option String) :
    decOptStr (encOptStr s) = .ok s := by
  cases s <;> rfl

@[simp] theorem decOptWith_encOptWith (f : α → Json) (g : Json → Except String α)
    (v : Option α) (hv : ∀ a, g (f a) = .ok a) (hnn : ∀ a, f a ≠ .null) :
    decOptWith g (encOptWith f v) = .ok v := by
  cases v with
  | none => rfl
  | some a =>
    simp only [encOptWith, Option.map_some]
    cases hfa : f a
    case null => exact absurd hfa (hnn a)
    all_goals have hga := hv a
    all_goals rw [hfa] at hga
    all_goals simp [decOptWith, hfa, hga, Except.map]

theorem decodeArr_map_ok (f : α → Json) (g : Json → Except String α)
    (l : List α) (h : ∀ a ∈ l, g (f a) = .ok a) :
    decodeArr g (l.map f) = Except.ok l := by
  induction l with
  | nil => rfl
  | cons a rest ih =>
    simp [decodeArr, h a (List.mem_cons_self a rest),
      ih (fun b hb => h b (List.mem_cons_of_mem a hb)), Except.bind, Except.map]

@[simp] theorem decListWith_encListO (f : α → Json) (g : Json → Except String α)
    (l : List α) (h : ∀ a ∈ l, g (f a) = .ok a) :
    decListWith g (encListO f l) = .ok l := by
  by_cases he : l.isEmpty
  · simp [encListO, he, decListWith, List.isEmpty_iff.mp he]
  · simp [encListO, he, decListWith, decodeArr_map_ok f g l h]

@[simp] theorem decListWith_encList (f : α → Json) (g : Json → Except String α)
    (l : List α) (h : ∀ a ∈ l, g (f a) = .ok a) :
    decListWith g (encList f l) = .ok l := by
  simp [encList, decListWith, decodeArr_map_ok f g l h]

/-! ## The upstream (OpenAI-style realtime) protocol: `pkg/protocol/openai`

String-typed enumerations (`Voice`, `AudioFormat`, ...) are Go `string`
types; their constant sets play no role in the claims and are kept as
`String` abbreviations. -/

namespace openai

abbrev Voice := String
abbrev AudioFormat := String
abbrev Modality := String
abbrev ClientTurnDetectionType := String
abbrev ToolType := String
abbrev ToolChoiceString := String
abbrev MessageRole := String
abbrev MessageItemType := String
abbrev MessageContentType := String
abbrev ItemStatus := String
abbrev ResponseStatus := String
abbrev ServerEventType := String

/-- `IntOrInf` is a Go `int` that marshals as the string `"inf"` when it
holds `math.MaxInt` (64-bit). -/
abbrev IntOrInf := ℤ

def Inf : IntOrInf := 2 ^ 63 - 1

/-- `IntOrInf.MarshalJSON` (as an optional field with `omitempty`). -/
def encIntOrInfO (m : IntOrInf) : Option Json :=
  if m = 0 then none
  else if m = Inf then some (.str "inf") else some (.num (m : ℚ))

/-- `IntOrInf.UnmarshalJSON` (of an optional field). -/
def decIntOrInf : Option Json → Except String IntOrInf
  | none => .ok 0
  | some .null => .ok 0
  | some (.str s) => if s = "inf" then .ok Inf else .error "cannot unmarshal into IntOrInf"
  | some (.num q) => if q.den = 1 then .ok q.num else .error "cannot unmarshal into IntOrInf"
  | some _ => .error "cannot unmarshal into IntOrInf"

@[simp] theorem decIntOrInf_encIntOrInfO (m : IntOrInf) :
    decIntOrInf (encIntOrInfO m) = .ok m := by
  unfold encIntOrInfO decIntOrInf
  by_cases h0 : m = 0
  · simp [h0]
  · by_cases hinf : m = Inf
    · have hne : (Inf : IntOrInf) ≠ 0 := by norm_num [Inf]
      simp [hinf, hne]
    · simp [h0, hinf]

/-- `openai.Error` (five `string` fields, all `omitempty`). -/
structure Error where
  Message : String
  Type' : String
  Code : String
  Param : String
  EventID : String

def Error.toJson (e : Error) : Json :=
  .obj (ofield "message" (encStrO e.Message) ++ ofield "type" (encStrO e.Type') ++
    ofield "code" (encStrO e.Code) ++ ofield "param" (encStrO e.Param) ++
    ofield "event_id" (encStrO e.EventID))

def Error.fromJson (j : Json) : Except String Error :=
  match j with
  | .obj kvs => do
      let message ← decStr (jget kvs "message")
      let type' ← decStr (jget kvs "type")
      let code ← decStr (jget kvs "code")
      let param ← decStr (jget kvs "param")
      let eventId ← decStr (jget kvs "event_id")
      pure ⟨message, type', code, param, eventId⟩
  | _ => .error "cannot unmarshal into Error"

@[simp] theorem Error_fromJson_toJson (e : Error) : Error.fromJson e.toJson = .ok e := by
  simp [Error.toJson, Error.fromJson, Bind.bind, Except.bind, pure, Except.pure]

def Error.zero : Error := ⟨"", "", "", "", ""⟩

/-- `TurnDetectionParams` (embedded in `TurnDetection`; its fields are
flattened into the parent JSON object, as Go does for anonymous fields). -/
structure TurnDetectionParams where
  Threshold : ℚ
  PrefixPaddingMs : ℤ
  SilenceDurationMs : ℤ

def TurnDetectionParams.kvs (p : TurnDetectionParams) : List (String × Json) :=
  ofield "threshold" (encQO p.Threshold) ++
    ofield "prefix_padding_ms" (encIntO p.PrefixPaddingMs) ++
    ofield "silence_duration_ms" (encIntO p.SilenceDurationMs)

structure TurnDetection where
  Type' : ClientTurnDetectionType
  Params : TurnDetectionParams

def TurnDetection.toJson (t : TurnDetection) : Json :=
  .obj (ofield "type" (encStr t.Type') ++ t.Params.kvs)

def TurnDetection.fromJson (j : Json) : Except String TurnDetection :=
  match j with
  | .obj kvs => do
      let type' ← decStr (jget kvs "type")
      let threshold ← decQ (jget kvs "threshold")
      let prefixPaddingMs ← decInt (jget kvs "prefix_padding_ms")
      let silenceDurationMs ← decInt (jget kvs "silence_duration_ms")
      pure ⟨type', ⟨threshold, prefixPaddingMs, silenceDurationMs⟩⟩
  | _ => .error "cannot unmarshal into TurnDetection"

@[simp] theorem TurnDetection_fromJson_toJson (t : TurnDetection) :
    TurnDetection.fromJson t.toJson = .ok t := by
  simp [TurnDetection.toJson, TurnDetection.fromJson, TurnDetectionParams.kvs,
    Bind.bind, Except.bind, pure, Except.pure]

structure InputAudioTranscription where
  Model : String

def InputAudioTranscription.toJson (i : InputAudioTranscription) : Json :=
  .obj (ofield "model" (encStr i.Model))

def InputAudioTranscription.fromJson (j : Json) : Except String InputAudioTranscription :=
  match j with
  | .obj kvs => do
      let model ← decStr (jget kvs "model")
      pure ⟨model⟩
  | _ => .error "cannot unmarshal into InputAudioTranscription"

@[simp] theorem InputAudioTranscription_fromJson_toJson (i : InputAudioTranscription) :
    InputAudioTranscription.fromJson i.toJson = .ok i := by
  simp [InputAudioTranscription.toJson, InputAudioTranscription.fromJson,
    Bind.bind, Except.bind, pure, Except.pure]

structure ToolFunction where
  Name : String

def ToolFunction.zero : ToolFunction := ⟨""⟩

def ToolFunction.toJson (f : ToolFunction) : Json := .obj (ofield "name" (encStr f.Name))

def ToolFunction.fromJson (j : Json) : Except String ToolFunction :=
  match j with
  | .obj kvs => do
      let name ← decStr (jget kvs "name")
      pure ⟨name⟩
  | _ => .error "cannot unmarshal into ToolFunction"

/-- Decode a non-pointer struct field: a missing key or `null` leaves the
zero value of the struct. -/
def decStructWith (g : Json → Except String α) (zero : α) : Option Json → Except String α
  | none => .ok zero
  | some .null => .ok zero
  | some j => g j

structure ToolChoice where
  Type' : ToolType
  Function : ToolFunction

def ToolChoice.zero : ToolChoice := ⟨"", ToolFunction.zero⟩

def ToolChoice.toJson (t : ToolChoice) : Json :=
  .obj (ofield "type" (encStr t.Type') ++ ofield "function" (some t.Function.toJson))

def ToolChoice.fromJson (j : Json) : Except String ToolChoice :=
  match j with
  | .obj kvs => do
      let type' ← decStr (jget kvs "type")
      let function ← decStructWith ToolFunction.fromJson ToolFunction.zero (jget kvs "function")
      pure ⟨type', function⟩
  | _ => .error "cannot unmarshal into ToolChoice"

structure Tool where
  Type' : ToolType
  Name : String
  Description : String
  Parameters : Json

def Tool.toJson (t : Tool) : Json :=
  .obj (ofield "type" (encStr t.Type') ++ ofield "name" (encStr t.Name) ++
    ofield "description" (encStr t.Description) ++ ofield "parameters" (some t.Parameters))

/-- An `any` field without `omitempty`: a missing key leaves the nil
interface, which this model identifies with JSON `null`. -/
def decAny : Option Json → Except String Json
  | none => .ok .null
  | some j => .ok j

def Tool.fromJson (j : Json) : Except String Tool :=
  match j with
  | .obj kvs => do
      let type' ← decStr (jget kvs "type")
      let name ← decStr (jget kvs "name")
      let description ← decStr (jget kvs "description")
      let parameters ← decAny (jget kvs "parameters")
      pure ⟨type', name, description, parameters⟩
  | _ => .error "cannot unmarshal into Tool"

@[simp] theorem Tool_fromJson_toJson (t : Tool) : Tool.fromJson t.toJson = .ok t := by
  simp [Tool.toJson, Tool.fromJson, decAny, Bind.bind, Except.bind, pure, Except.pure]

structure MessageContentPart where
  Type' : MessageContentType
  Text : Option String
  Audio : Option String
  Transcript : Option String
  RawText : Option String

def MessageContentPart.zero : MessageContentPart := ⟨"", none, none, none, none⟩

def MessageContentPart.toJson (p : MessageContentPart) : Json :=
  .obj (ofield "type" (encStr p.Type') ++ ofield "text" (encOptStr p.Text) ++
    ofield "audio" (encOptStr p.Audio) ++ ofield "transcript" (encOptStr p.Transcript) ++
    ofield "raw_text" (encOptStr p.RawText))

def MessageContentPart.fromJson (j : Json) : Except String MessageContentPart :=
  match j with
  | .obj kvs => do
      let type' ← decStr (jget kvs "type")
      let text ← decOptStr (jget kvs "text")
      let audio ← decOptStr (jget kvs "audio")
      let transcript ← decOptStr (jget kvs "transcript")
      let rawText ← decOptStr (jget kvs "raw_text")
      pure ⟨type', text, audio, transcript, rawText⟩
  | _ => .error "cannot unmarshal into MessageContentPart"

@[simp] theorem MessageContentPart_fromJson_toJson (p : MessageContentPart) :
    MessageContentPart.fromJson p.toJson = .ok p := by
  simp [MessageContentPart.toJson, MessageContentPart.fromJson,
    Bind.bind, Except.bind, pure, Except.pure]

structure MessageItem where
  ID : String
  Type' : MessageItemType
  Status : ItemStatus
  Role : MessageRole
  Content : List MessageContentPart

def MessageItem.zero : MessageItem := ⟨"", "", "", "", []⟩

def MessageItem.kvs (m : MessageItem) : List (String × Json) :=
  ofield "id" (encStr m.ID) ++ ofield "type" (encStr m.Type') ++
    ofield "status" (encStr m.Status) ++ ofield "role" (encStr m.Role) ++
    ofield "content" (encList MessageContentPart.toJson m.Content)

def MessageItem.toJson (m : MessageItem) : Json := .obj m.kvs

def MessageItem.fromKvs (kvs : List (String × Json)) : Except String MessageItem := do
  let id ← decStr (jget kvs "id")
  let type' ← decStr (jget kvs "type")
  let status ← decStr (jget kvs "status")
  let role ← decStr (jget kvs "role")
  let content ← decListWith MessageContentPart.fromJson (jget kvs "content")
  pure ⟨id, type', status, role, content⟩

def MessageItem.fromJson (j : Json) : Except String MessageItem :=
  match j with
  | .obj kvs => MessageItem.fromKvs kvs
  | _ => .error "cannot unmarshal into MessageItem"

/-- `ResponseMessageItem` embeds `MessageItem` (fields flattened) and adds
`object,omitempty`. -/
structure ResponseMessageItem where
  Item : MessageItem
  Object : String

def ResponseMessageItem.zero : ResponseMessageItem := ⟨MessageItem.zero, ""⟩

def ResponseMessageItem.toJson (r : ResponseMessageItem) : Json :=
  .obj (r.Item.kvs ++ ofield "object" (encStrO r.Object))

def ResponseMessageItem.fromJson (j : Json) : Except String ResponseMessageItem :=
  match j with
  | .obj kvs => do
      let item ← MessageItem.fromKvs kvs
      let object ← decStr (jget kvs "object")
      pure ⟨item, object⟩
  | _ => .error "cannot unmarshal into ResponseMessageItem"

@[simp] theorem ResponseMessageItem_fromJson_toJson (r : ResponseMessageItem) :
    ResponseMessageItem.fromJson r.toJson = .ok r := by
  simp [ResponseMessageItem.toJson, ResponseMessageItem.fromJson, MessageItem.kvs,
    MessageItem.fromKvs, Bind.bind, Except.bind, pure, Except.pure,
    decListWith_encList MessageContentPart.toJson MessageContentPart.fromJson _
      (fun a _ => MessageContentPart_fromJson_toJson a)]

structure Conversation where
  ID : String
  Object : String

def Conversation.zero : Conversation := ⟨"", ""⟩

def Conversation.toJson (c : Conversation) : Json :=
  .obj (ofield "id" (encStr c.ID) ++ ofield "object" (encStr c.Object))

def Conversation.fromJson (j : Json) : Except String Conversation :=
  match j with
  | .obj kvs => do
      let id ← decStr (jget kvs "id")
      let object ← decStr (jget kvs "object")
      pure ⟨id, object⟩
  | _ => .error "cannot unmarshal into Conversation"

@[simp] theorem Conversation_fromJson_toJson (c : Conversation) :
    Conversation.fromJson c.toJson = .ok c := by
  simp [Conversation.toJson, Conversation.fromJson, Bind.bind, Except.bind, pure, Except.pure]

structure CachedTokensDetails where
  TextTokens : ℤ
  AudioTokens : ℤ

def CachedTokensDetails.toJson (c : CachedTokensDetails) : Json :=
  .obj (ofield "text_tokens" (encInt c.TextTokens) ++ ofield "audio_tokens" (encInt c.AudioTokens))

def CachedTokensDetails.fromJson (j : Json) : Except String CachedTokensDetails :=
  match j with
  | .obj kvs => do
      let t ← decInt (jget kvs "text_tokens")
      let a ← decInt (jget kvs "audio_tokens")
      pure ⟨t, a⟩
  | _ => .error "cannot unmarshal into CachedTokensDetails"

@[simp] theorem CachedTokensDetails_fromJson_toJson (c : CachedTokensDetails) :
    CachedTokensDetails.fromJson c.toJson = .ok c := by
  simp [CachedTokensDetails.toJson, CachedTokensDetails.fromJson,
    Bind.bind, Except.bind, pure, Except.pure]

structure InputTokenDetails where
  CachedTokens : ℤ
  TextTokens : ℤ
  AudioTokens : ℤ
  CachedTokensDetails : Option CachedTokensDetails

def InputTokenDetails.toJson (d : InputTokenDetails) : Json :=
  .obj (ofield "cached_tokens" (encInt d.CachedTokens) ++
    ofield "text_tokens" (encInt d.TextTokens) ++
    ofield "audio_tokens" (encInt d.AudioTokens) ++
    ofield "cached_tokens_details" (encOptWith CachedTokensDetails.toJson d.CachedTokensDetails))

def InputTokenDetails.fromJson (j : Json) : Except String InputTokenDetails :=
  match j with
  | .obj kvs => do
      let c ← decInt (jget kvs "cached_tokens")
      let t ← decInt (jget kvs "text_tokens")
      let a ← decInt (jget kvs "audio_tokens")
      let d ← decOptWith CachedTokensDetails.fromJson (jget kvs "cached_tokens_details")
      pure ⟨c, t, a, d⟩
  | _ => .error "cannot unmarshal into InputTokenDetails"

@[simp] theorem InputTokenDetails_fromJson_toJson (d : InputTokenDetails) :
    InputTokenDetails.fromJson d.toJson = .ok d := by
  simp [InputTokenDetails.toJson, InputTokenDetails.fromJson,
    Bind.bind, Except.bind, pure, Except.pure,
    decOptWith_encOptWith CachedTokensDetails.toJson CachedTokensDetails.fromJson _
      (fun a => CachedTokensDetails_fromJson_toJson a) (fun a => by simp [CachedTokensDetails.toJson])]

structure OutputTokenDetails where
  TextTokens : ℤ
  AudioTokens : ℤ

def OutputTokenDetails.toJson (d : OutputTokenDetails) : Json :=
  .obj (ofield "text_tokens" (encInt d.TextTokens) ++ ofield "audio_tokens" (encInt d.AudioTokens))

def OutputTokenDetails.fromJson (j : Json) : Except String OutputTokenDetails :=
  match j with
  | .obj kvs => do
      let t ← decInt (jget kvs "text_tokens")
      let a ← decInt (jget kvs "audio_tokens")
      pure ⟨t, a⟩
  | _ => .error "cannot unmarshal into OutputTokenDetails"

@[simp] theorem OutputTokenDetails_fromJson_toJson (d : OutputTokenDetails) :
    OutputTokenDetails.fromJson d.toJson = .ok d := by
  simp [OutputTokenDetails.toJson, OutputTokenDetails.fromJson,
    Bind.bind, Except.bind, pure, Except.pure]

structure Usage where
  TotalTokens : ℤ
  InputTokens : ℤ
  OutputTokens : ℤ
  InputTokenDetails : Option InputTokenDetails
  OutputTokenDetails : Option OutputTokenDetails

def Usage.toJson (u : Usage) : Json :=
  .obj (ofield "total_tokens" (encInt u.TotalTokens) ++
    ofield "input_tokens" (encInt u.InputTokens) ++
    ofield "output_tokens" (encInt u.OutputTokens) ++
    ofield "input_token_details" (encOptWith InputTokenDetails.toJson u.InputTokenDetails) ++
    ofield "output_token_details" (encOptWith OutputTokenDetails.toJson u.OutputTokenDetails))

def Usage.fromJson (j : Json) : Except String Usage :=
  match j with
  | .obj kvs => do
      let t ← decInt (jget kvs "total_tokens")
      let i ← decInt (jget kvs "input_tokens")
      let o ← decInt (jget kvs "output_tokens")
      let itd ← decOptWith InputTokenDetails.fromJson (jget kvs "input_token_details")
      let otd ← decOptWith OutputTokenDetails.fromJson (jget kvs "output_token_details")
      pure ⟨t, i, o, itd, otd⟩
  | _ => .error "cannot unmarshal into Usage"

@[simp] theorem Usage_fromJson_toJson (u : Usage) : Usage.fromJson u.toJson = .ok u := by
  simp [Usage.toJson, Usage.fromJson, Bind.bind, Except.bind, pure, Except.pure,
    decOptWith_encOptWith InputTokenDetails.toJson InputTokenDetails.fromJson _
      (fun a => InputTokenDetails_fromJson_toJson a) (fun a => by simp [InputTokenDetails.toJson]),
    decOptWith_encOptWith OutputTokenDetails.toJson OutputTokenDetails.fromJson _
      (fun a => OutputTokenDetails_fromJson_toJson a) (fun a => by simp [OutputTokenDetails.toJson])]

/-- An `any` field with `omitempty` (`none` is Go's nil interface).  Note
a `some Json.null` value marshals to an explicit `null`, which Go decodes
back to the nil interface; the round-trip theorems therefore exclude it. -/
def encAnyO (v : Option Json) : Option Json := v

def decAnyO : Option Json → Except String (Option Json)
  | none => .ok none
  | some .null => .ok none
  | some j => .ok (some j)

@[simp] theorem decAnyO_encAnyO (v : Option Json) (h : v ≠ some Json.null) :
    decAnyO (encAnyO v) = .ok v := by
  match v with
  | none => rfl
  | some .null => exact absurd rfl h
  | some (.bool _) | some (.num _) | some (.str _) | some (.arr _) | some (.obj _) => rfl

structure Response where
  ID : String
  Object : String
  Status : ResponseStatus
  StatusDetails : Option Json
  Output : List ResponseMessageItem
  Usage : Option Usage

def Response.zero : Response := ⟨"", "", "", none, [], none⟩

def Response.toJson (r : Response) : Json :=
  .obj (ofield "id" (encStr r.ID) ++ ofield "object" (encStr r.Object) ++
    ofield "status" (encStr r.Status) ++ ofield "status_details" (encAnyO r.StatusDetails) ++
    ofield "output" (encList ResponseMessageItem.toJson r.Output) ++
    ofield "usage" (encOptWith Usage.toJson r.Usage))

def Response.fromJson (j : Json) : Except String Response :=
  match j with
  | .obj kvs => do
      let id ← decStr (jget kvs "id")
      let object ← decStr (jget kvs "object")
      let status ← decStr (jget kvs "status")
      let statusDetails ← decAnyO (jget kvs "status_details")
      let output ← decListWith ResponseMessageItem.fromJson (jget kvs "output")
      let usage ← decOptWith Usage.fromJson (jget kvs "usage")
      pure ⟨id, object, status, statusDetails, output, usage⟩
  | _ => .error "cannot unmarshal into Response"

@[simp] theorem Response_fromJson_toJson (r : Response) (h : r.StatusDetails ≠ some Json.null) :
    Response.fromJson r.toJson = .ok r := by
  simp [Response.toJson, Response.fromJson, Bind.bind, Except.bind, pure, Except.pure,
    decAnyO_encAnyO r.StatusDetails h,
    decListWith_encList ResponseMessageItem.toJson ResponseMessageItem.fromJson _
      (fun a _ => ResponseMessageItem_fromJson_toJson a),
    decOptWith_encOptWith Usage.toJson Usage.fromJson _
      (fun a => Usage_fromJson_toJson a) (fun a => by simp [Usage.toJson])]

structure RateLimit where
  Name : String
  Limit : ℤ
  Remaining : ℤ
  ResetSeconds : ℚ

def RateLimit.toJson (r : RateLimit) : Json :=
  .obj (ofield "name" (encStr r.Name) ++ ofield "limit" (encInt r.Limit) ++
    ofield "remaining" (encInt r.Remaining) ++ ofield "reset_seconds" (encQ r.ResetSeconds))

def RateLimit.fromJson (j : Json) : Except String RateLimit :=
  match j with
  | .obj kvs => do
      let name ← decStr (jget kvs "name")
      let limit ← decInt (jget kvs "limit")
      let remaining ← decInt (jget kvs "remaining")
      let resetSeconds ← decQ (jget kvs "reset_seconds")
      pure ⟨name, limit, remaining, resetSeconds⟩
  | _ => .error "cannot unmarshal into RateLimit"

@[simp] theorem RateLimit_fromJson_toJson (r : RateLimit) :
    RateLimit.fromJson r.toJson = .ok r := by
  simp [RateLimit.toJson, RateLimit.fromJson, Bind.bind, Except.bind, pure, Except.pure]

/-- Canonical compact rendering of a JSON value.  It stands in for the raw
bytes that `ServerToolChoice.UnmarshalJSON` slices when the value it was
handed is not a JSON object; no theorem in this development reaches that
path, so non-integer number formatting and string escaping are canonical
rather than byte-exact. -/
def Json.render : Json → String
  | .null => "null"
  | .bool b => if b then "true" else "false"
  | .num q => if q.den = 1 then toString q.num else toString q
  | .str s => "\"" ++ s ++ "\""
  | .arr xs => "[" ++ String.intercalate "," (xs.attach.map fun x => Json.render x.val) ++ "]"
  | .obj kvs => "\x7b" ++ String.intercalate ","
      (kvs.attach.map fun kv => "\"" ++ kv.val.1 ++ "\":" ++ Json.render kv.val.2) ++ "\x7d"
decreasing_by
  · have := List.sizeOf_lt_of_mem x.property
    simp only [Json.arr.sizeOf_spec]
    omega
  · have h1 := List.sizeOf_lt_of_mem kv.property
    have h2 : sizeOf kv.val.2 < sizeOf kv.val := by
      obtain ⟨a, b⟩ := kv.val
      simp only [Prod.mk.sizeOf_spec]
      omega
    simp only [Json.obj.sizeOf_spec]
    omega

/-- Strip at most one leading and one trailing double-quote byte, as
`ServerToolChoice.UnmarshalJSON` does on its raw input. -/
def stripQuotes (s : List Char) : List Char :=
  let s1 := if s.head? = some '"' then s.tail else s
  if s1.getLast? = some '"' then s1.dropLast else s1

/-- `ServerToolChoice` has no struct tags: Go's default marshalling uses the
field names `String` and `Function` as JSON keys.  (The Go field named
`String` is called `Str` here because `String` cannot name a field whose
sibling declarations mention the `String` type.) -/
structure ServerToolChoice where
  Str : ToolChoiceString
  Function : ToolChoice

def ServerToolChoice.zero : ServerToolChoice := ⟨"", ToolChoice.zero⟩

def ServerToolChoice.toJson (m : ServerToolChoice) : Json :=
  .obj (ofield "String" (encStr m.Str) ++ ofield "Function" (some m.Function.toJson))

/-- `ServerToolChoice.UnmarshalJSON` applied to a parsed JSON value (the
field decoder below only hands it non-`null` values, since the field is a
pointer with `omitempty`): `json.Unmarshal(data, &m.Function)` succeeds on
any JSON object (unmatched keys are ignored) and on `null` (a no-op), and
then both fields keep what that left; on failure the raw bytes minus at
most one leading and one trailing quote become the `String` field and
`Function` is reset.  It never returns an error. -/
def ServerToolChoice.fromJsonValue (j : Json) : Except String ServerToolChoice :=
  match j with
  | .obj kvs =>
      match ToolChoice.fromJson (.obj kvs) with
      | .ok f => .ok ⟨"", f⟩
      | .error _ =>
          .ok ⟨(String.mk (stripQuotes (Json.render (.obj kvs)).toList)), ToolChoice.zero⟩
  | .null => .ok ServerToolChoice.zero
  | j => .ok ⟨(String.mk (stripQuotes (Json.render j).toList)), ToolChoice.zero⟩


structure ServerSession where
  ID : String
  Object : String
  Model : String
  Modalities : List Modality
  Instructions : String
  Voice : Voice
  InputAudioFormat : AudioFormat
  OutputAudioFormat : AudioFormat
  InputAudioTranscription : Option InputAudioTranscription
  TurnDetection : Option TurnDetection
  Tools : List Tool
  ToolChoice : Option ServerToolChoice
  Temperature : ℚ
  MaxOutputTokens : IntOrInf

def ServerSession.zero : ServerSession :=
  ⟨"", "", "", [], "", "", "", "", none, none, [], none, 0, 0⟩

def ServerSession.toJson (s : ServerSession) : Json :=
  .obj (ofield "id" (encStr s.ID) ++ ofield "object" (encStr s.Object) ++
    ofield "model" (encStr s.Model) ++
    ofield "modalities" (encListO Json.str s.Modalities) ++
    ofield "instructions" (encStrO s.Instructions) ++
    ofield "voice" (encStrO s.Voice) ++
    ofield "input_audio_format" (encStrO s.InputAudioFormat) ++
    ofield "output_audio_format" (encStrO s.OutputAudioFormat) ++
    ofield "input_audio_transcription"
      (encOptWith InputAudioTranscription.toJson s.InputAudioTranscription) ++
    ofield "turn_detection" (encOptWith TurnDetection.toJson s.TurnDetection) ++
    ofield "tools" (encListO Tool.toJson s.Tools) ++
    ofield "tool_choice" (encOptWith ServerToolChoice.toJson s.ToolChoice) ++
    ofield "temperature" (encQO s.Temperature) ++
    ofield "max_response_output_tokens" (encIntOrInfO s.MaxOutputTokens))

/-- Decoder for a plain JSON string (a `Modality` slice element). -/
def decStrElem : Json → Except String String
  | .str s => .ok s
  | .null => .ok ""
  | _ => .error "cannot unmarshal into string"

def ServerSession.fromJson (j : Json) : Except String ServerSession :=
  match j with
  | .obj kvs => do
      let id ← decStr (jget kvs "id")
      let object ← decStr (jget kvs "object")
      let model ← decStr (jget kvs "model")
      let modalities ← decListWith decStrElem (jget kvs "modalities")
      let instructions ← decStr (jget kvs "instructions")
      let voice ← decStr (jget kvs "voice")
      let iaf ← decStr (jget kvs "input_audio_format")
      let oaf ← decStr (jget kvs "output_audio_format")
      let iat ← decOptWith InputAudioTranscription.fromJson (jget kvs "input_audio_transcription")
      let td ← decOptWith TurnDetection.fromJson (jget kvs "turn_detection")
      let tools ← decListWith Tool.fromJson (jget kvs "tools")
      let tc ← decOptWith ServerToolChoice.fromJsonValue (jget kvs "tool_choice")
      let temperature ← decQ (jget kvs "temperature")
      let mot ← decIntOrInf (jget kvs "max_response_output_tokens")
      pure ⟨id, object, model, modalities, instructions, voice, iaf, oaf, iat, td, tools,
        tc, temperature, mot⟩
  | _ => .error "cannot unmarshal into ServerSession"

/-- A `ServerToolChoice` does not survive Go's marshal/unmarshal pair (it is
marshalled by the default struct encoder but parsed by the custom
string-or-object decoder), so the round-trip theorems require the session's
`tool_choice` to be absent. -/
@[simp] theorem ServerSession_fromJson_toJson (s : ServerSession) (h : s.ToolChoice = none) :
    ServerSession.fromJson s.toJson = .ok s := by
  simp [ServerSession.toJson, ServerSession.fromJson, h,
    Bind.bind, Except.bind, pure, Except.pure,
    decListWith_encListO Json.str decStrElem _ (fun a _ => rfl),
    decListWith_encListO Tool.toJson Tool.fromJson _ (fun a _ => Tool_fromJson_toJson a),
    decOptWith_encOptWith InputAudioTranscription.toJson InputAudioTranscription.fromJson _
      (fun a => InputAudioTranscription_fromJson_toJson a)
      (fun a => by simp [InputAudioTranscription.toJson]),
    decOptWith_encOptWith TurnDetection.toJson TurnDetection.fromJson _
      (fun a => TurnDetection_fromJson_toJson a) (fun a => by simp [TurnDetection.toJson])]
  rw [← h]

/-- Decode a required struct field through produced-by-`toJson` objects. -/
@[simp] theorem decStructWith_roundtrip (g : Json → Except String α) (z : α)
    (f : α → Json) (a : α) (hv : g (f a) = .ok a) (hnn : f a ≠ .null) :
    decStructWith g z (some (f a)) = .ok a := by
  cases hfa : f a
  case null => exact absurd hfa hnn
  all_goals rw [hfa] at hv
  all_goals simp [decStructWith, hfa, hv]

@[simp] theorem decOptWith_some_roundtrip (g : Json → Except String α)
    (f : α → Json) (a : α) (hv : g (f a) = .ok a) (hnn : f a ≠ .null) :
    decOptWith g (some (f a)) = .ok (some a) := by
  cases hfa : f a
  case null => exact absurd hfa hnn
  all_goals rw [hfa] at hv
  all_goals simp [decOptWith, hfa, hv, Except.map]

/-- `openai.ServerEventBase`, embedded (JSON-flattened) in every server
event struct. -/
structure ServerEventBase where
  EventID : String
  Type' : ServerEventType

def ServerEventBase.kvs (b : ServerEventBase) : List (String × Json) :=
  ofield "event_id" (encStrO b.EventID) ++ ofield "type" (encStr b.Type')

/-- The upstream server events, one constructor per Go event struct in
`pkg/protocol/openai/server_event.go` (the constructor arguments are that
struct's own fields, in order, after the embedded `ServerEventBase`). -/
inductive ServerEvent where
  | error (base : ServerEventBase) (error : Error)
  | sessionCreated (base : ServerEventBase) (session : ServerSession)
  | sessionUpdated (base : ServerEventBase) (session : ServerSession)
  | conversationCreated (base : ServerEventBase) (conversation : Conversation)
  | inputAudioBufferCommitted (base : ServerEventBase) (previousItemID itemID : String)
  | inputAudioBufferCleared (base : ServerEventBase)
  | inputAudioBufferSpeechStarted (base : ServerEventBase) (audioStartMs : ℤ) (itemID : String)
  | inputAudioBufferSpeechStopped (base : ServerEventBase) (audioEndMs : ℤ) (itemID : String)
  | conversationItemCreated (base : ServerEventBase) (previousItemID : String)
      (item : ResponseMessageItem)
  | conversationItemInputAudioTranscriptionCompleted (base : ServerEventBase)
      (itemID : String) (contentIndex : ℤ) (transcript : String)
  | conversationItemInputAudioTranscriptionFailed (base : ServerEventBase)
      (itemID : String) (contentIndex : ℤ) (error : Error)
  | conversationItemTruncated (base : ServerEventBase) (itemID : String)
      (contentIndex : ℤ) (audioEndMs : ℤ)
  | conversationItemDeleted (base : ServerEventBase) (itemID : String)
  | responseCreated (base : ServerEventBase) (response : Response)
  | responseCancelled (base : ServerEventBase)
  | responseDone (base : ServerEventBase) (response : Response)
  | responseOutputItemAdded (base : ServerEventBase) (responseID : String)
      (outputIndex : ℤ) (item : ResponseMessageItem)
  | responseOutputItemDone (base : ServerEventBase) (responseID : String)
      (outputIndex : ℤ) (item : ResponseMessageItem)
  | responseContentPartAdded (base : ServerEventBase) (responseID itemID : String)
      (outputIndex contentIndex : ℤ) (part : MessageContentPart)
  | responseContentPartDone (base : ServerEventBase) (responseID itemID : String)
      (outputIndex contentIndex : ℤ) (part : MessageContentPart)
  | responseTextDelta (base : ServerEventBase) (responseID itemID : String)
      (outputIndex contentIndex : ℤ) (delta : String)
  | responseTextDone (base : ServerEventBase) (responseID itemID : String)
      (outputIndex contentIndex : ℤ) (text : String)
  | responseAudioTranscriptDelta (base : ServerEventBase) (responseID itemID : String)
      (outputIndex contentIndex : ℤ) (delta : String)
  | responseAudioTranscriptDone (base : ServerEventBase) (responseID itemID : String)
      (outputIndex contentIndex : ℤ) (transcript : String)
  | responseAudioDelta (base : ServerEventBase) (responseID itemID : String)
      (outputIndex contentIndex : ℤ) (delta : String)
  | responseAudioDone (base : ServerEventBase) (responseID itemID : String)
      (outputIndex contentIndex : ℤ)
  | responseFunctionCallArgumentsDelta (base : ServerEventBase) (responseID itemID : String)
      (outputIndex : ℤ) (callID : String) (delta : String)
  | responseFunctionCallArgumentsDone (base : ServerEventBase) (responseID itemID : String)
      (outputIndex : ℤ) (callID : String) (arguments : String) (name : String)
  | rateLimitsUpdated (base : ServerEventBase) (rateLimits : List RateLimit)

namespace ServerEvent

/-- The type tag `MarshalServerEvent`'s switch stamps on each variant. -/
def canonicalType : ServerEvent → ServerEventType
  | .error .. => "error"
  | .sessionCreated .. => "session.created"
  | .sessionUpdated .. => "session.updated"
  | .conversationCreated .. => "conversation.created"
  | .inputAudioBufferCommitted .. => "input_audio_buffer.committed"
  | .inputAudioBufferCleared .. => "input_audio_buffer.cleared"
  | .inputAudioBufferSpeechStarted .. => "input_audio_buffer.speech_started"
  | .inputAudioBufferSpeechStopped .. => "input_audio_buffer.speech_stopped"
  | .conversationItemCreated .. => "conversation.item.created"
  | .conversationItemInputAudioTranscriptionCompleted .. =>
      "conversation.item.input_audio_transcription.completed"
  | .conversationItemInputAudioTranscriptionFailed .. =>
      "conversation.item.input_audio_transcription.failed"
  | .conversationItemTruncated .. => "conversation.item.truncated"
  | .conversationItemDeleted .. => "conversation.item.deleted"
  | .responseCreated .. => "response.created"
  | .responseCancelled .. => "response.cancelled"
  | .responseDone .. => "response.done"
  | .responseOutputItemAdded .. => "response.output_item.added"
  | .responseOutputItemDone .. => "response.output_item.done"
  | .responseContentPartAdded .. => "response.content_part.added"
  | .responseContentPartDone .. => "response.content_part.done"
  | .responseTextDelta .. => "response.text.delta"
  | .responseTextDone .. => "response.text.done"
  | .responseAudioTranscriptDelta .. => "response.audio_transcript.delta"
  | .responseAudioTranscriptDone .. => "response.audio_transcript.done"
  | .responseAudioDelta .. => "response.audio.delta"
  | .responseAudioDone .. => "response.audio.done"
  | .responseFunctionCallArgumentsDelta .. => "response.function_call_arguments.delta"
  | .responseFunctionCallArgumentsDone .. => "response.function_call_arguments.done"
  | .rateLimitsUpdated .. => "rate_limits.updated"

def base : ServerEvent → ServerEventBase
  | .error b .. | .sessionCreated b .. | .sessionUpdated b .. | .conversationCreated b ..
  | .inputAudioBufferCommitted b .. | .inputAudioBufferCleared b
  | .inputAudioBufferSpeechStarted b .. | .inputAudioBufferSpeechStopped b ..
  | .conversationItemCreated b .. | .conversationItemInputAudioTranscriptionCompleted b ..
  | .conversationItemInputAudioTranscriptionFailed b .. | .conversationItemTruncated b ..
  | .conversationItemDeleted b .. | .responseCreated b .. | .responseCancelled b
  | .responseDone b .. | .responseOutputItemAdded b .. | .responseOutputItemDone b ..
  | .responseContentPartAdded b .. | .responseContentPartDone b ..
  | .responseTextDelta b .. | .responseTextDone b ..
  | .responseAudioTranscriptDelta b .. | .responseAudioTranscriptDone b ..
  | .responseAudioDelta b .. | .responseAudioDone b ..
  | .responseFunctionCallArgumentsDelta b .. | .responseFunctionCallArgumentsDone b ..
  | .rateLimitsUpdated b .. => b

def withBase (b : ServerEventBase) : ServerEvent → ServerEvent
  | .error _ e => .error b e
  | .sessionCreated _ s => .sessionCreated b s
  | .sessionUpdated _ s => .sessionUpdated b s
  | .conversationCreated _ c => .conversationCreated b c
  | .inputAudioBufferCommitted _ p i => .inputAudioBufferCommitted b p i
  | .inputAudioBufferCleared _ => .inputAudioBufferCleared b
  | .inputAudioBufferSpeechStarted _ a i => .inputAudioBufferSpeechStarted b a i
  | .inputAudioBufferSpeechStopped _ a i => .inputAudioBufferSpeechStopped b a i
  | .conversationItemCreated _ p i => .conversationItemCreated b p i
  | .conversationItemInputAudioTranscriptionCompleted _ i c t =>
      .conversationItemInputAudioTranscriptionCompleted b i c t
  | .conversationItemInputAudioTranscriptionFailed _ i c e =>
      .conversationItemInputAudioTranscriptionFailed b i c e
  | .conversationItemTruncated _ i c a => .conversationItemTruncated b i c a
  | .conversationItemDeleted _ i => .conversationItemDeleted b i
  | .responseCreated _ r => .responseCreated b r
  | .responseCancelled _ => .responseCancelled b
  | .responseDone _ r => .responseDone b r
  | .responseOutputItemAdded _ r o i => .responseOutputItemAdded b r o i
  | .responseOutputItemDone _ r o i => .responseOutputItemDone b r o i
  | .responseContentPartAdded _ r i o c p => .responseContentPartAdded b r i o c p
  | .responseContentPartDone _ r i o c p => .responseContentPartDone b r i o c p
  | .responseTextDelta _ r i o c d => .responseTextDelta b r i o c d
  | .responseTextDone _ r i o c t => .responseTextDone b r i o c t
  | .responseAudioTranscriptDelta _ r i o c d => .responseAudioTranscriptDelta b r i o c d
  | .responseAudioTranscriptDone _ r i o c t => .responseAudioTranscriptDone b r i o c t
  | .responseAudioDelta _ r i o c d => .responseAudioDelta b r i o c d
  | .responseAudioDone _ r i o c => .responseAudioDone b r i o c
  | .responseFunctionCallArgumentsDelta _ r i o c d =>
      .responseFunctionCallArgumentsDelta b r i o c d
  | .responseFunctionCallArgumentsDone _ r i o c a n =>
      .responseFunctionCallArgumentsDone b r i o c a n
  | .rateLimitsUpdated _ l => .rateLimitsUpdated b l

end ServerEvent

/-- `ServerEventBase.SetBaseEventType`: overwrite the type tag and stamp a
fresh `event_id` (`utils.UniqueID()`, passed in as `fresh`) when empty. -/
def setBaseEventType (fresh : String) (t : ServerEventType) (b : ServerEventBase) :
    ServerEventBase :=
  { b with Type' := t, EventID := if b.EventID = "" then fresh else b.EventID }

/-- `json.Marshal` of each server event struct (the embedded base's fields
first, then the variant's own fields, following the struct tags). -/
def ServerEvent.toJson : ServerEvent → Json
  | .error b e => .obj (b.kvs ++ ofield "error" (some e.toJson))
  | .sessionCreated b s => .obj (b.kvs ++ ofield "session" (some s.toJson))
  | .sessionUpdated b s => .obj (b.kvs ++ ofield "session" (some s.toJson))
  | .conversationCreated b c => .obj (b.kvs ++ ofield "conversation" (some c.toJson))
  | .inputAudioBufferCommitted b p i =>
      .obj (b.kvs ++ ofield "previous_item_id" (encStrO p) ++ ofield "item_id" (encStr i))
  | .inputAudioBufferCleared b => .obj b.kvs
  | .inputAudioBufferSpeechStarted b a i =>
      .obj (b.kvs ++ ofield "audio_start_ms" (encInt a) ++ ofield "item_id" (encStr i))
  | .inputAudioBufferSpeechStopped b a i =>
      .obj (b.kvs ++ ofield "audio_end_ms" (encInt a) ++ ofield "item_id" (encStr i))
  | .conversationItemCreated b p i =>
      .obj (b.kvs ++ ofield "previous_item_id" (encStrO p) ++ ofield "item" (some i.toJson))
  | .conversationItemInputAudioTranscriptionCompleted b i c t =>
      .obj (b.kvs ++ ofield "item_id" (encStr i) ++ ofield "content_index" (encInt c) ++
        ofield "transcript" (encStr t))
  | .conversationItemInputAudioTranscriptionFailed b i c e =>
      .obj (b.kvs ++ ofield "item_id" (encStr i) ++ ofield "content_index" (encInt c) ++
        ofield "error" (some e.toJson))
  | .conversationItemTruncated b i c a =>
      .obj (b.kvs ++ ofield "item_id" (encStr i) ++ ofield "content_index" (encInt c) ++
        ofield "audio_end_ms" (encInt a))
  | .conversationItemDeleted b i => .obj (b.kvs ++ ofield "item_id" (encStr i))
  | .responseCreated b r => .obj (b.kvs ++ ofield "response" (some r.toJson))
  | .responseCancelled b => .obj b.kvs
  | .responseDone b r => .obj (b.kvs ++ ofield "response" (some r.toJson))
  | .responseOutputItemAdded b r o i =>
      .obj (b.kvs ++ ofield "response_id" (encStr r) ++ ofield "output_index" (encInt o) ++
        ofield "item" (some i.toJson))
  | .responseOutputItemDone b r o i =>
      .obj (b.kvs ++ ofield "response_id" (encStr r) ++ ofield "output_index" (encInt o) ++
        ofield "item" (some i.toJson))
  | .responseContentPartAdded b r i o c p =>
      .obj (b.kvs ++ ofield "response_id" (encStr r) ++ ofield "item_id" (encStr i) ++
        ofield "output_index" (encInt o) ++ ofield "content_index" (encInt c) ++
        ofield "part" (some p.toJson))
  | .responseContentPartDone b r i o c p =>
      .obj (b.kvs ++ ofield "response_id" (encStr r) ++ ofield "item_id" (encStr i) ++
        ofield "output_index" (encInt o) ++ ofield "content_index" (encInt c) ++
        ofield "part" (some p.toJson))
  | .responseTextDelta b r i o c d =>
      .obj (b.kvs ++ ofield "response_id" (encStr r) ++ ofield "item_id" (encStr i) ++
        ofield "output_index" (encInt o) ++ ofield "content_index" (encInt c) ++
        ofield "delta" (encStr d))
  | .responseTextDone b r i o c t =>
      .obj (b.kvs ++ ofield "response_id" (encStr r) ++ ofield "item_id" (encStr i) ++
        ofield "output_index" (encInt o) ++ ofield "content_index" (encInt c) ++
        ofield "text" (encStr t))
  | .responseAudioTranscriptDelta b r i o c d =>
      .obj (b.kvs ++ ofield "response_id" (encStr r) ++ ofield "item_id" (encStr i) ++
        ofield "output_index" (encInt o) ++ ofield "content_index" (encInt c) ++
        ofield "delta" (encStr d))
  | .responseAudioTranscriptDone b r i o c t =>
      .obj (b.kvs ++ ofield "response_id" (encStr r) ++ ofield "item_id" (encStr i) ++
        ofield "output_index" (encInt o) ++ ofield "content_index" (encInt c) ++
        ofield "transcript" (encStr t))
  | .responseAudioDelta b r i o c d =>
      .obj (b.kvs ++ ofield "response_id" (encStr r) ++ ofield "item_id" (encStr i) ++
        ofield "output_index" (encInt o) ++ ofield "content_index" (encInt c) ++
        ofield "delta" (encStr d))
  | .responseAudioDone b r i o c =>
      .obj (b.kvs ++ ofield "response_id" (encStr r) ++ ofield "item_id" (encStr i) ++
        ofield "output_index" (encInt o) ++ ofield "content_index" (encInt c))
  | .responseFunctionCallArgumentsDelta b r i o c d =>
      .obj (b.kvs ++ ofield "response_id" (encStr r) ++ ofield "item_id" (encStr i) ++
        ofield "output_index" (encInt o) ++ ofield "call_id" (encStr c) ++
        ofield "delta" (encStr d))
  | .responseFunctionCallArgumentsDone b r i o c a n =>
      .obj (b.kvs ++ ofield "response_id" (encStr r) ++ ofield "item_id" (encStr i) ++
        ofield "output_index" (encInt o) ++ ofield "call_id" (encStr c) ++
        ofield "arguments" (encStr a) ++ ofield "name" (encStr n))
  | .rateLimitsUpdated b l =>
      .obj (b.kvs ++ ofield "rate_limits" (encList RateLimit.toJson l))

/-- `MarshalServerEvent`: the switch stamps the canonical type tag and a
fresh event id on the event's base (mutating the event, which `json.Marshal`
then serialises); the `default` branch is unreachable because the variant
set is closed.  The stamped event is returned alongside its JSON. -/
def MarshalServerEvent (fresh : String) (e : ServerEvent) : ServerEvent × Json :=
  let e' := e.withBase (setBaseEventType fresh e.canonicalType e.base)
  (e', e'.toJson)

def ServerEventBase.fromKvs (kvs : List (String × Json)) : Except String ServerEventBase := do
  let eid ← decStr (jget kvs "event_id")
  let t ← decStr (jget kvs "type")
  pure ⟨eid, t⟩

/-- `UnmarshalServerEvent`: peek the `type` discriminator, then decode the
matching event struct.  The Go switch has no case for
`response.cancelled`, so that tag falls through to the `default` branch and
is rejected as unknown. -/
def UnmarshalServerEvent (j : Json) : Except String ServerEvent :=
  match j with
  | .obj kvs => do
      let t ← decStr (jget kvs "type")
      let b ← ServerEventBase.fromKvs kvs
      if t = "error" then do
        let e ← decStructWith Error.fromJson Error.zero (jget kvs "error")
        pure (.error b e)
      else if t = "session.created" then do
        let s ← decStructWith ServerSession.fromJson ServerSession.zero (jget kvs "session")
        pure (.sessionCreated b s)
      else if t = "session.updated" then do
        let s ← decStructWith ServerSession.fromJson ServerSession.zero (jget kvs "session")
        pure (.sessionUpdated b s)
      else if t = "conversation.created" then do
        let c ← decStructWith Conversation.fromJson Conversation.zero (jget kvs "conversation")
        pure (.conversationCreated b c)
      else if t = "input_audio_buffer.committed" then do
        let p ← decStr (jget kvs "previous_item_id")
        let i ← decStr (jget kvs "item_id")
        pure (.inputAudioBufferCommitted b p i)
      else if t = "input_audio_buffer.cleared" then
        pure (.inputAudioBufferCleared b)
      else if t = "input_audio_buffer.speech_started" then do
        let a ← decInt (jget kvs "audio_start_ms")
        let i ← decStr (jget kvs "item_id")
        pure (.inputAudioBufferSpeechStarted b a i)
      else if t = "input_audio_buffer.speech_stopped" then do
        let a ← decInt (jget kvs "audio_end_ms")
        let i ← decStr (jget kvs "item_id")
        pure (.inputAudioBufferSpeechStopped b a i)
      else if t = "conversation.item.created" then do
        let p ← decStr (jget kvs "previous_item_id")
        let i ← decStructWith ResponseMessageItem.fromJson ResponseMessageItem.zero
          (jget kvs "item")
        pure (.conversationItemCreated b p i)
      else if t = "conversation.item.input_audio_transcription.completed" then do
        let i ← decStr (jget kvs "item_id")
        let c ← decInt (jget kvs "content_index")
        let tr ← decStr (jget kvs "transcript")
        pure (.conversationItemInputAudioTranscriptionCompleted b i c tr)
      else if t = "conversation.item.input_audio_transcription.failed" then do
        let i ← decStr (jget kvs "item_id")
        let c ← decInt (jget kvs "content_index")
        let e ← decStructWith Error.fromJson Error.zero (jget kvs "error")
        pure (.conversationItemInputAudioTranscriptionFailed b i c e)
      else if t = "conversation.item.truncated" then do
        let i ← decStr (jget kvs "item_id")
        let c ← decInt (jget kvs "content_index")
        let a ← decInt (jget kvs "audio_end_ms")
        pure (.conversationItemTruncated b i c a)
      else if t = "conversation.item.deleted" then do
        let i ← decStr (jget kvs "item_id")
        pure (.conversationItemDeleted b i)
      else if t = "response.created" then do
        let r ← decStructWith Response.fromJson Response.zero (jget kvs "response")
        pure (.responseCreated b r)
      else if t = "response.done" then do
        let r ← decStructWith Response.fromJson Response.zero (jget kvs "response")
        pure (.responseDone b r)
      else if t = "response.output_item.added" then do
        let r ← decStr (jget kvs "response_id")
        let o ← decInt (jget kvs "output_index")
        let i ← decStructWith ResponseMessageItem.fromJson ResponseMessageItem.zero
          (jget kvs "item")
        pure (.responseOutputItemAdded b r o i)
      else if t = "response.output_item.done" then do
        let r ← decStr (jget kvs "response_id")
        let o ← decInt (jget kvs "output_index")
        let i ← decStructWith ResponseMessageItem.fromJson ResponseMessageItem.zero
          (jget kvs "item")
        pure (.responseOutputItemDone b r o i)
      else if t = "response.content_part.added" then do
        let r ← decStr (jget kvs "response_id")
        let i ← decStr (jget kvs "item_id")
        let o ← decInt (jget kvs "output_index")
        let c ← decInt (jget kvs "content_index")
        let p ← decStructWith MessageContentPart.fromJson MessageContentPart.zero
          (jget kvs "part")
        pure (.responseContentPartAdded b r i o c p)
      else if t = "response.content_part.done" then do
        let r ← decStr (jget kvs "response_id")
        let i ← decStr (jget kvs "item_id")
        let o ← decInt (jget kvs "output_index")
        let c ← decInt (jget kvs "content_index")
        let p ← decStructWith MessageContentPart.fromJson MessageContentPart.zero
          (jget kvs "part")
        pure (.responseContentPartDone b r i o c p)
      else if t = "response.text.delta" then do
        let r ← decStr (jget kvs "response_id")
        let i ← decStr (jget kvs "item_id")
        let o ← decInt (jget kvs "output_index")
        let c ← decInt (jget kvs "content_index")
        let d ← decStr (jget kvs "delta")
        pure (.responseTextDelta b r i o c d)
      else if t = "response.text.done" then do
        let r ← decStr (jget kvs "response_id")
        let i ← decStr (jget kvs "item_id")
        let o ← decInt (jget kvs "output_index")
        let c ← decInt (jget kvs "content_index")
        let tx ← decStr (jget kvs "text")
        pure (.responseTextDone b r i o c tx)
      else if t = "response.audio_transcript.delta" then do
        let r ← decStr (jget kvs "response_id")
        let i ← decStr (jget kvs "item_id")
        let o ← decInt (jget kvs "output_index")
        let c ← decInt (jget kvs "content_index")
        let d ← decStr (jget kvs "delta")
        pure (.responseAudioTranscriptDelta b r i o c d)
      else if t = "response.audio_transcript.done" then do
        let r ← decStr (jget kvs "response_id")
        let i ← decStr (jget kvs "item_id")
        let o ← decInt (jget kvs "output_index")
        let c ← decInt (jget kvs "content_index")
        let tr ← decStr (jget kvs "transcript")
        pure (.responseAudioTranscriptDone b r i o c tr)
      else if t = "response.audio.delta" then do
        let r ← decStr (jget kvs "response_id")
        let i ← decStr (jget kvs "item_id")
        let o ← decInt (jget kvs "output_index")
        let c ← decInt (jget kvs "content_index")
        let d ← decStr (jget kvs "delta")
        pure (.responseAudioDelta b r i o c d)
      else if t = "response.audio.done" then do
        let r ← decStr (jget kvs "response_id")
        let i ← decStr (jget kvs "item_id")
        let o ← decInt (jget kvs "output_index")
        let c ← decInt (jget kvs "content_index")
        pure (.responseAudioDone b r i o c)
      else if t = "response.function_call_arguments.delta" then do
        let r ← decStr (jget kvs "response_id")
        let i ← decStr (jget kvs "item_id")
        let o ← decInt (jget kvs "output_index")
        let c ← decStr (jget kvs "call_id")
        let d ← decStr (jget kvs "delta")
        pure (.responseFunctionCallArgumentsDelta b r i o c d)
      else if t = "response.function_call_arguments.done" then do
        let r ← decStr (jget kvs "response_id")
        let i ← decStr (jget kvs "item_id")
        let o ← decInt (jget kvs "output_index")
        let c ← decStr (jget kvs "call_id")
        let a ← decStr (jget kvs "arguments")
        let n ← decStr (jget kvs "name")
        pure (.responseFunctionCallArgumentsDone b r i o c a n)
      else if t = "rate_limits.updated" then do
        let l ← decListWith RateLimit.fromJson (jget kvs "rate_limits")
        pure (.rateLimitsUpdated b l)
      else
        .error ("unknown server event type: " ++ t)
  | _ => .error "cannot unmarshal into server event"
theorem rt_error (eid : String) (e : Error) :
    UnmarshalServerEvent (ServerEvent.toJson (.error ⟨eid, "error"⟩ e)) = .ok (.error ⟨eid, "error"⟩ e) := by
  simp [ServerEvent.toJson,
    UnmarshalServerEvent,
    ServerEventBase.kvs,
    ServerEventBase.fromKvs,
    Bind.bind,
    Except.bind,
    pure,
    Except.pure,
    decStructWith_roundtrip Error.fromJson Error.zero Error.toJson e
      (Error_fromJson_toJson e) (by simp [Error.toJson])]

theorem rt_sessionCreated (eid : String) (s : ServerSession) (h : s.ToolChoice = none) :
    UnmarshalServerEvent (ServerEvent.toJson (.sessionCreated ⟨eid, "session.created"⟩ s)) = .ok (.sessionCreated ⟨eid, "session.created"⟩ s) := by
  simp [ServerEvent.toJson,
    UnmarshalServerEvent,
    ServerEventBase.kvs,
    ServerEventBase.fromKvs,
    Bind.bind,
    Except.bind,
    pure,
    Except.pure,
    decStructWith_roundtrip ServerSession.fromJson ServerSession.zero ServerSession.toJson s
      (ServerSession_fromJson_toJson s h) (by simp [ServerSession.toJson])]

theorem rt_sessionUpdated (eid : String) (s : ServerSession) (h : s.ToolChoice = none) :
    UnmarshalServerEvent (ServerEvent.toJson (.sessionUpdated ⟨eid, "session.updated"⟩ s)) = .ok (.sessionUpdated ⟨eid, "session.updated"⟩ s) := by
  simp [ServerEvent.toJson,
    UnmarshalServerEvent,
    ServerEventBase.kvs,
    ServerEventBase.fromKvs,
    Bind.bind,
    Except.bind,
    pure,
    Except.pure,
    decStructWith_roundtrip ServerSession.fromJson ServerSession.zero ServerSession.toJson s
      (ServerSession_fromJson_toJson s h) (by simp [ServerSession.toJson])]

theorem rt_conversationCreated (eid : String) (c : Conversation) :
    UnmarshalServerEvent (ServerEvent.toJson (.conversationCreated ⟨eid, "conversation.created"⟩ c)) = .ok (.conversationCreated ⟨eid, "conversation.created"⟩ c) := by
  simp [ServerEvent.toJson,
    UnmarshalServerEvent,
    ServerEventBase.kvs,
    ServerEventBase.fromKvs,
    Bind.bind,
    Except.bind,
    pure,
    Except.pure,
    decStructWith_roundtrip Conversation.fromJson Conversation.zero Conversation.toJson c
      (Conversation_fromJson_toJson c) (by simp [Conversation.toJson])]

theorem rt_inputAudioBufferCommitted (eid : String) (p i : String) :
    UnmarshalServerEvent (ServerEvent.toJson (.inputAudioBufferCommitted ⟨eid, "input_audio_buffer.committed"⟩ p i)) = .ok (.inputAudioBufferCommitted ⟨eid, "input_audio_buffer.committed"⟩ p i) := by
  simp [ServerEvent.toJson,
    UnmarshalServerEvent,
    ServerEventBase.kvs,
    ServerEventBase.fromKvs,
    Bind.bind,
    Except.bind,
    pure,
    Except.pure]

theorem rt_inputAudioBufferCleared (eid : String) :
    UnmarshalServerEvent (ServerEvent.toJson (.inputAudioBufferCleared ⟨eid, "input_audio_buffer.cleared"⟩)) = .ok (.inputAudioBufferCleared ⟨eid, "input_audio_buffer.cleared"⟩) := by
  simp [ServerEvent.toJson,
    UnmarshalServerEvent,
    ServerEventBase.kvs,
    ServerEventBase.fromKvs,
    Bind.bind,
    Except.bind,
    pure,
    Except.pure]

theorem rt_inputAudioBufferSpeechStarted (eid : String) (a : ℤ) (i : String) :
    UnmarshalServerEvent (ServerEvent.toJson (.inputAudioBufferSpeechStarted ⟨eid, "input_audio_buffer.speech_started"⟩ a i)) = .ok (.inputAudioBufferSpeechStarted ⟨eid, "input_audio_buffer.speech_started"⟩ a i) := by
  simp [ServerEvent.toJson,
    UnmarshalServerEvent,
    ServerEventBase.kvs,
    ServerEventBase.fromKvs,
    Bind.bind,
    Except.bind,
    pure,
    Except.pure]

theorem rt_inputAudioBufferSpeechStopped (eid : String) (a : ℤ) (i : String) :
    UnmarshalServerEvent (ServerEvent.toJson (.inputAudioBufferSpeechStopped ⟨eid, "input_audio_buffer.speech_stopped"⟩ a i)) = .ok (.inputAudioBufferSpeechStopped ⟨eid, "input_audio_buffer.speech_stopped"⟩ a i) := by
  simp [ServerEvent.toJson,
    UnmarshalServerEvent,
    ServerEventBase.kvs,
    ServerEventBase.fromKvs,
    Bind.bind,
    Except.bind,
    pure,
    Except.pure]

theorem rt_conversationItemCreated (eid : String) (p : String) (i : ResponseMessageItem) :
    UnmarshalServerEvent (ServerEvent.toJson (.conversationItemCreated ⟨eid, "conversation.item.created"⟩ p i)) = .ok (.conversationItemCreated ⟨eid, "conversation.item.created"⟩ p i) := by
  simp [ServerEvent.toJson,
    UnmarshalServerEvent,
    ServerEventBase.kvs,
    ServerEventBase.fromKvs,
    Bind.bind,
    Except.bind,
    pure,
    Except.pure,
    decStructWith_roundtrip ResponseMessageItem.fromJson ResponseMessageItem.zero
      ResponseMessageItem.toJson i (ResponseMessageItem_fromJson_toJson i)
      (by simp [ResponseMessageItem.toJson])]

theorem rt_conversationItemIATCompleted (eid : String) (i : String) (c : ℤ) (tr : String) :
    UnmarshalServerEvent (ServerEvent.toJson (.conversationItemInputAudioTranscriptionCompleted ⟨eid, "conversation.item.input_audio_transcription.completed"⟩ i c tr)) = .ok (.conversationItemInputAudioTranscriptionCompleted ⟨eid, "conversation.item.input_audio_transcription.completed"⟩ i c tr) := by
  simp [ServerEvent.toJson,
    UnmarshalServerEvent,
    ServerEventBase.kvs,
    ServerEventBase.fromKvs,
    Bind.bind,
    Except.bind,
    pure,
    Except.pure]

theorem rt_conversationItemIATFailed (eid : String) (i : String) (c : ℤ) (e : Error) :
    UnmarshalServerEvent (ServerEvent.toJson (.conversationItemInputAudioTranscriptionFailed ⟨eid, "conversation.item.input_audio_transcription.failed"⟩ i c e)) = .ok (.conversationItemInputAudioTranscriptionFailed ⟨eid, "conversation.item.input_audio_transcription.failed"⟩ i c e) := by
  simp [ServerEvent.toJson,
    UnmarshalServerEvent,
    ServerEventBase.kvs,
    ServerEventBase.fromKvs,
    Bind.bind,
    Except.bind,
    pure,
    Except.pure,
    decStructWith_roundtrip Error.fromJson Error.zero Error.toJson e
      (Error_fromJson_toJson e) (by simp [Error.toJson])]

theorem rt_conversationItemTruncated (eid : String) (i : String) (c a : ℤ) :
    UnmarshalServerEvent (ServerEvent.toJson (.conversationItemTruncated ⟨eid, "conversation.item.truncated"⟩ i c a)) = .ok (.conversationItemTruncated ⟨eid, "conversation.item.truncated"⟩ i c a) := by
  simp [ServerEvent.toJson,
    UnmarshalServerEvent,
    ServerEventBase.kvs,
    ServerEventBase.fromKvs,
    Bind.bind,
    Except.bind,
    pure,
    Except.pure]

theorem rt_conversationItemDeleted (eid : String) (i : String) :
    UnmarshalServerEvent (ServerEvent.toJson (.conversationItemDeleted ⟨eid, "conversation.item.deleted"⟩ i)) = .ok (.conversationItemDeleted ⟨eid, "conversation.item.deleted"⟩ i) := by
  simp [ServerEvent.toJson,
    UnmarshalServerEvent,
    ServerEventBase.kvs,
    ServerEventBase.fromKvs,
    Bind.bind,
    Except.bind,
    pure,
    Except.pure]

theorem rt_responseCreated (eid : String) (r : Response) (h : r.StatusDetails ≠ some Json.null) :
    UnmarshalServerEvent (ServerEvent.toJson (.responseCreated ⟨eid, "response.created"⟩ r)) = .ok (.responseCreated ⟨eid, "response.created"⟩ r) := by
  simp [ServerEvent.toJson,
    UnmarshalServerEvent,
    ServerEventBase.kvs,
    ServerEventBase.fromKvs,
    Bind.bind,
    Except.bind,
    pure,
    Except.pure,
    decStructWith_roundtrip Response.fromJson Response.zero Response.toJson r
      (Response_fromJson_toJson r h) (by simp [Response.toJson])]

theorem rt_responseDone (eid : String) (r : Response) (h : r.StatusDetails ≠ some Json.null) :
    UnmarshalServerEvent (ServerEvent.toJson (.responseDone ⟨eid, "response.done"⟩ r)) = .ok (.responseDone ⟨eid, "response.done"⟩ r) := by
  simp [ServerEvent.toJson,
    UnmarshalServerEvent,
    ServerEventBase.kvs,
    ServerEventBase.fromKvs,
    Bind.bind,
    Except.bind,
    pure,
    Except.pure,
    decStructWith_roundtrip Response.fromJson Response.zero Response.toJson r
      (Response_fromJson_toJson r h) (by simp [Response.toJson])]

theorem rt_responseOutputItemAdded (eid : String) (r : String) (o : ℤ) (i : ResponseMessageItem) :
    UnmarshalServerEvent (ServerEvent.toJson (.responseOutputItemAdded ⟨eid, "response.output_item.added"⟩ r o i)) = .ok (.responseOutputItemAdded ⟨eid, "response.output_item.added"⟩ r o i) := by
  simp [ServerEvent.toJson,
    UnmarshalServerEvent,
    ServerEventBase.kvs,
    ServerEventBase.fromKvs,
    Bind.bind,
    Except.bind,
    pure,
    Except.pure,
    decStructWith_roundtrip ResponseMessageItem.fromJson ResponseMessageItem.zero
      ResponseMessageItem.toJson i (ResponseMessageItem_fromJson_toJson i)
      (by simp [ResponseMessageItem.toJson])]

theorem rt_responseOutputItemDone (eid : String) (r : String) (o : ℤ) (i : ResponseMessageItem) :
    UnmarshalServerEvent (ServerEvent.toJson (.responseOutputItemDone ⟨eid, "response.output_item.done"⟩ r o i)) = .ok (.responseOutputItemDone ⟨eid, "response.output_item.done"⟩ r o i) := by
  simp [ServerEvent.toJson,
    UnmarshalServerEvent,
    ServerEventBase.kvs,
    ServerEventBase.fromKvs,
    Bind.bind,
    Except.bind,
    pure,
    Except.pure,
    decStructWith_roundtrip ResponseMessageItem.fromJson ResponseMessageItem.zero
      ResponseMessageItem.toJson i (ResponseMessageItem_fromJson_toJson i)
      (by simp [ResponseMessageItem.toJson])]

theorem rt_responseContentPartAdded (eid : String) (r i : String) (o c : ℤ) (p : MessageContentPart) :
    UnmarshalServerEvent (ServerEvent.toJson (.responseContentPartAdded ⟨eid, "response.content_part.added"⟩ r i o c p)) = .ok (.responseContentPartAdded ⟨eid, "response.content_part.added"⟩ r i o c p) := by
  simp [ServerEvent.toJson,
    UnmarshalServerEvent,
    ServerEventBase.kvs,
    ServerEventBase.fromKvs,
    Bind.bind,
    Except.bind,
    pure,
    Except.pure,
    decStructWith_roundtrip MessageContentPart.fromJson MessageContentPart.zero
      MessageContentPart.toJson p (MessageContentPart_fromJson_toJson p)
      (by simp [MessageContentPart.toJson])]

theorem rt_responseContentPartDone (eid : String) (r i : String) (o c : ℤ) (p : MessageContentPart) :
    UnmarshalServerEvent (ServerEvent.toJson (.responseContentPartDone ⟨eid, "response.content_part.done"⟩ r i o c p)) = .ok (.responseContentPartDone ⟨eid, "response.content_part.done"⟩ r i o c p) := by
  simp [ServerEvent.toJson,
    UnmarshalServerEvent,
    ServerEventBase.kvs,
    ServerEventBase.fromKvs,
    Bind.bind,
    Except.bind,
    pure,
    Except.pure,
    decStructWith_roundtrip MessageContentPart.fromJson MessageContentPart.zero
      MessageContentPart.toJson p (MessageContentPart_fromJson_toJson p)
      (by simp [MessageContentPart.toJson])]

theorem rt_responseTextDelta (eid : String) (r i : String) (o c : ℤ) (d : String) :
    UnmarshalServerEvent (ServerEvent.toJson (.responseTextDelta ⟨eid, "response.text.delta"⟩ r i o c d)) = .ok (.responseTextDelta ⟨eid, "response.text.delta"⟩ r i o c d) := by
  simp [ServerEvent.toJson,
    UnmarshalServerEvent,
    ServerEventBase.kvs,
    ServerEventBase.fromKvs,
    Bind.bind,
    Except.bind,
    pure,
    Except.pure]

theorem rt_responseTextDone (eid : String) (r i : String) (o c : ℤ) (tx : String) :
    UnmarshalServerEvent (ServerEvent.toJson (.responseTextDone ⟨eid, "response.text.done"⟩ r i o c tx)) = .ok (.responseTextDone ⟨eid, "response.text.done"⟩ r i o c tx) := by
  simp [ServerEvent.toJson,
    UnmarshalServerEvent,
    ServerEventBase.kvs,
    ServerEventBase.fromKvs,
    Bind.bind,
    Except.bind,
    pure,
    Except.pure]

theorem rt_responseAudioTranscriptDelta (eid : String) (r i : String) (o c : ℤ) (d : String) :
    UnmarshalServerEvent (ServerEvent.toJson (.responseAudioTranscriptDelta ⟨eid, "response.audio_transcript.delta"⟩ r i o c d)) = .ok (.responseAudioTranscriptDelta ⟨eid, "response.audio_transcript.delta"⟩ r i o c d) := by
  simp [ServerEvent.toJson,
    UnmarshalServerEvent,
    ServerEventBase.kvs,
    ServerEventBase.fromKvs,
    Bind.bind,
    Except.bind,
    pure,
    Except.pure]

theorem rt_responseAudioTranscriptDone (eid : String) (r i : String) (o c : ℤ) (tr : String) :
    UnmarshalServerEvent (ServerEvent.toJson (.responseAudioTranscriptDone ⟨eid, "response.audio_transcript.done"⟩ r i o c tr)) = .ok (.responseAudioTranscriptDone ⟨eid, "response.audio_transcript.done"⟩ r i o c tr) := by
  simp [ServerEvent.toJson,
    UnmarshalServerEvent,
    ServerEventBase.kvs,
    ServerEventBase.fromKvs,
    Bind.bind,
    Except.bind,
    pure,
    Except.pure]

theorem rt_responseAudioDelta (eid : String) (r i : String) (o c : ℤ) (d : String) :
    UnmarshalServerEvent (ServerEvent.toJson (.responseAudioDelta ⟨eid, "response.audio.delta"⟩ r i o c d)) = .ok (.responseAudioDelta ⟨eid, "response.audio.delta"⟩ r i o c d) := by
  simp [ServerEvent.toJson,
    UnmarshalServerEvent,
    ServerEventBase.kvs,
    ServerEventBase.fromKvs,
    Bind.bind,
    Except.bind,
    pure,
    Except.pure]

theorem rt_responseAudioDone (eid : String) (r i : String) (o c : ℤ) :
    UnmarshalServerEvent (ServerEvent.toJson (.responseAudioDone ⟨eid, "response.audio.done"⟩ r i o c)) = .ok (.responseAudioDone ⟨eid, "response.audio.done"⟩ r i o c) := by
  simp [ServerEvent.toJson,
    UnmarshalServerEvent,
    ServerEventBase.kvs,
    ServerEventBase.fromKvs,
    Bind.bind,
    Except.bind,
    pure,
    Except.pure]

theorem rt_responseFCADelta (eid : String) (r i : String) (o : ℤ) (c d : String) :
    UnmarshalServerEvent (ServerEvent.toJson (.responseFunctionCallArgumentsDelta ⟨eid, "response.function_call_arguments.delta"⟩ r i o c d)) = .ok (.responseFunctionCallArgumentsDelta ⟨eid, "response.function_call_arguments.delta"⟩ r i o c d) := by
  simp [ServerEvent.toJson,
    UnmarshalServerEvent,
    ServerEventBase.kvs,
    ServerEventBase.fromKvs,
    Bind.bind,
    Except.bind,
    pure,
    Except.pure]

theorem rt_responseFCADone (eid : String) (r i : String) (o : ℤ) (c a n : String) :
    UnmarshalServerEvent (ServerEvent.toJson (.responseFunctionCallArgumentsDone ⟨eid, "response.function_call_arguments.done"⟩ r i o c a n)) = .ok (.responseFunctionCallArgumentsDone ⟨eid, "response.function_call_arguments.done"⟩ r i o c a n) := by
  simp [ServerEvent.toJson,
    UnmarshalServerEvent,
    ServerEventBase.kvs,
    ServerEventBase.fromKvs,
    Bind.bind,
    Except.bind,
    pure,
    Except.pure]

theorem rt_rateLimitsUpdated (eid : String) (l : List RateLimit) :
    UnmarshalServerEvent (ServerEvent.toJson (.rateLimitsUpdated ⟨eid, "rate_limits.updated"⟩ l)) = .ok (.rateLimitsUpdated ⟨eid, "rate_limits.updated"⟩ l) := by
  simp [ServerEvent.toJson,
    UnmarshalServerEvent,
    ServerEventBase.kvs,
    ServerEventBase.fromKvs,
    Bind.bind,
    Except.bind,
    pure,
    Except.pure,
    decListWith_encList RateLimit.toJson RateLimit.fromJson l
      (fun a _ => RateLimit_fromJson_toJson a)]

/-- `UnmarshalServerEvent` has no case for `response.cancelled`: its
marshalled form is rejected as an unknown event type. -/
theorem rt_responseCancelled_fails (eid : String) :
    UnmarshalServerEvent (ServerEvent.toJson (.responseCancelled ⟨eid, "response.cancelled"⟩)) =
      .error "unknown server event type: response.cancelled" := by
  simp [ServerEvent.toJson, UnmarshalServerEvent, ServerEventBase.kvs, ServerEventBase.fromKvs,
    Bind.bind, Except.bind, pure, Except.pure]

/-- The variants whose payloads survive Go's marshal/unmarshal pair: a
session's `tool_choice` must be absent (`ServerToolChoice` is marshalled by
the default struct encoder but parsed by the custom string-or-object
decoder, which loses it), and a response's `status_details` must not be an
explicit JSON `null` (which decodes back to the nil interface). -/
def ServerEvent.WF : ServerEvent → Prop
  | .sessionCreated _ s => s.ToolChoice = none
  | .sessionUpdated _ s => s.ToolChoice = none
  | .responseCreated _ r => r.StatusDetails ≠ some .null
  | .responseDone _ r => r.StatusDetails ≠ some .null
  | _ => True

def ServerEvent.isCancelled : ServerEvent → Prop
  | .responseCancelled _ => True
  | _ => False

/-! ### Upstream client events (`pkg/protocol/openai`, client side)

The translator only constructs these and hands them to
`SendToRealtimeAPI`; their JSON marshalling plays no role in the claims, so
they are embedded as values. -/

abbrev ClientEventType := String

structure ClientExtraParams where
  TurnId : String

structure ClientEventBase where
  EventID : String
  Type' : ClientEventType
  Extra : Option ClientExtraParams

structure ClientSession where
  Modalities : List Modality
  Instructions : Option String
  Voice : Option Voice
  InputAudioFormat : Option AudioFormat
  OutputAudioFormat : Option AudioFormat
  InputAudioTranscription : Option InputAudioTranscription
  TurnDetection : Option TurnDetection
  Tools : List Tool
  ToolChoice : Json
  Temperature : Option ℚ
  MaxOutputTokens : Option IntOrInf
  History : List MessageItem
  BuiltInTools : List String

structure VoiceClone where
  Audio : String
  Text : String

structure ResponseCreateParams where
  Modalities : List Modality
  Instructions : Option String
  Voice : Option Voice
  OutputAudioFormat : Option AudioFormat
  Tools : List Tool
  ToolChoice : Json
  Temperature : Option ℚ
  MaxOutputTokens : Option IntOrInf
  VoiceClone : Option VoiceClone
  BuiltInTools : List String
  History : List MessageItem

/-- The upstream client events (`ClientEventInterface`'s nine variants). -/
inductive ClientEvent where
  | sessionUpdate (base : ClientEventBase) (session : ClientSession)
  | inputAudioBufferAppend (base : ClientEventBase) (audio : String)
  | inputAudioBufferCommit (base : ClientEventBase) (transcript language : String)
  | inputAudioBufferClear (base : ClientEventBase)
  | conversationItemCreate (base : ClientEventBase) (previousItemID : String) (item : MessageItem)
  | conversationItemTruncate (base : ClientEventBase) (itemID : String)
      (contentIndex audioEndMs : ℤ)
  | conversationItemDelete (base : ClientEventBase) (itemID : String)
  | responseCreate (base : ClientEventBase) (response : ResponseCreateParams)
  | responseCancel (base : ClientEventBase)

def ClientEvent.clientEventType : ClientEvent → ClientEventType
  | .sessionUpdate .. => "session.update"
  | .inputAudioBufferAppend .. => "input_audio_buffer.append"
  | .inputAudioBufferCommit .. => "input_audio_buffer.commit"
  | .inputAudioBufferClear .. => "input_audio_buffer.clear"
  | .conversationItemCreate .. => "conversation.item.create"
  | .conversationItemTruncate .. => "conversation.item.truncate"
  | .conversationItemDelete .. => "conversation.item.delete"
  | .responseCreate .. => "response.create"
  | .responseCancel .. => "response.cancel"

end openai

/-! ## The device protocol: `pkg/protocol/xiaozhi` -/

namespace xiaozhi

abbrev ClientEventType := String
abbrev ClientState := String
abbrev ClientMode := String
abbrev ServerEventType := String
abbrev ServerTTSState := String

structure AudioParams where
  Format : String
  SampleRate : ℤ
  Channels : ℤ
  FrameDuration : ℤ

structure ClientEventBase where
  Type' : ClientEventType
  Version : ℤ
  Transport : String
  SessionID : String
  AudioParams : Option AudioParams

/-- The device's client events, one constructor per Go struct in
`pkg/protocol/xiaozhi/client_event.go`.  `ClientEventAbort` is a variant of
this closed set even though the translator's dispatch switch has no case
for it. -/
inductive ClientEvent where
  | hello (base : ClientEventBase)
  | listen (base : ClientEventBase) (state : ClientState) (mode : ClientMode)
  | appendBuffer (base : ClientEventBase) (bytes : List ℕ)
  | abort (base : ClientEventBase) (reason : String)
  | iot (base : ClientEventBase) (data : String)

def ClientEvent.getAudioParams : ClientEvent → Option AudioParams
  | .hello b | .listen b .. | .appendBuffer b .. | .abort b .. | .iot b .. => b.AudioParams

/-- `UnmarshalClientBinEvent`: every binary frame becomes an
`append.buffer` event carrying the raw bytes; it never fails. -/
def UnmarshalClientBinEvent (data : List ℕ) : ClientEvent :=
  .appendBuffer ⟨"append.buffer", 0, "", "", none⟩ data

structure ServerEventBase where
  Type' : ServerEventType
  SessionId : String

/-- The device's server events (`pkg/protocol/xiaozhi/server_event.go`). -/
inductive ServerEvent where
  | error (base : ServerEventBase) (error : String)
  | hello (base : ServerEventBase) (transport : String) (audioParams : AudioParams)
  | stt (base : ServerEventBase) (text : String)
  | llm (base : ServerEventBase) (text emotion : String)
  | tts (base : ServerEventBase) (state : ServerTTSState) (text : String) (sampleRate : ℤ)

/-- Each Go event's `GetType` method returns its fixed type constant. -/
def ServerEvent.getType : ServerEvent → ServerEventType
  | .error .. => "error"
  | .hello .. => "hello"
  | .stt .. => "stt"
  | .llm .. => "llm"
  | .tts .. => "tts"

end xiaozhi

/-! ## The resampler: `pkg/audio` (`resample.go`)

Positions are `ℚ` (standing in for `float64`; every bound proved below uses
only order facts that hold for the float computation as well), the `uint64`
counters are `ℕ`, and the two loops carry explicit fuel, exhausted only in
states unreachable from `NewGoResampler` (`isr = 0`). -/

namespace audio

/-- Wrap an integer into signed 16-bit two's-complement range. -/
def toInt16 (n : ℤ) : ℤ := ((n + 2 ^ 15) % 2 ^ 16) - 2 ^ 15

/-- `(int16(pcm[i])) | (int16(pcm[i+1]) << 8)`: a little-endian signed
16-bit sample from two bytes (the Go shift wraps in `int16`). -/
def le16 (b0 b1 : ℕ) : ℤ := toInt16 ((b0 % 256 : ℕ) + 256 * (b1 % 256 : ℕ))

/-- Go's `float64` → `int16` conversion: truncation toward zero (wrapped
into range; the conversion is implementation-defined out of range, and no
claim depends on sample values). -/
def int16OfQ (q : ℚ) : ℤ := toInt16 (if 0 ≤ q then ⌊q⌋ else ⌈q⌉)

/-- The little-endian bytes of one int16 sample (`byte(v)`, `byte(v>>8)`). -/
def int16Bytes (v : ℤ) : List ℕ := [(v % 256).toNat, ((v / 256) % 256).toNat]

/-- The extraction loop of `resampleInitChannel`:
`for i := 2*channel; i < len(pcm); i += 2*channels`.  Fuel `pcm.length + 1`
suffices because the stride `2*channels` is at least 2 whenever the loop is
reached.  (`pcm[i+1]` out of range — an odd-length buffer — would panic in
Go; `Handle` rejects those lengths first.) -/
def resampleInitChannelLoop (pcm : List ℕ) (stride : ℕ) : ℕ → ℕ → List ℤ
  | 0, _ => []
  | fuel + 1, i =>
    if i < pcm.length then
      le16 (pcm.getD i 0) (pcm.getD (i + 1) 0) ::
        resampleInitChannelLoop pcm stride fuel (i + stride)
    else []

/-- `resampleInitChannel`: `nil` (here `none`) when the channel does not
exist, else every `channels`-th sample starting at `channel`. -/
def resampleInitChannel (pcm : List ℕ) (channels channel : ℕ) : Option (List ℤ) :=
  if channel ≥ channels then none
  else some (resampleInitChannelLoop pcm (2 * channels) (pcm.length + 1) (2 * channel))

def spline_z0 (m1 h0 x0 x1 y0 y1 x : ℚ) : ℚ :=
  let v0 := 0
  let v1 := (x - x0) * (x - x0) * (x - x0) * m1 / (6 * h0)
  let v2 := -1 * y0 * (x - x1) / h0
  let v3 := (y1 - h0 * h0 * m1 / 6) * (x - x0) / h0
  v0 + v1 + v2 + v3

def spline_z1 (m1 m2 h1 x1 x2 y1 y2 x : ℚ) : ℚ :=
  let v0 := -1 * (x - x2) * (x - x2) * (x - x2) * m1 / (6 * h1)
  let v1 := (x - x1) * (x - x1) * (x - x1) * m2 / (6 * h1)
  let v2 := -1 * (y1 - h1 * h1 * m1 / 6) * (x - x2) / h1
  let v3 := (y2 - h1 * h1 * m2 / 6) * (x - x1) / h1
  v0 + v1 + v2 + v3

def spline_z2 (m2 h2 x2 x3 y2 y3 x : ℚ) : ℚ :=
  let v0 := -1 * (x - x3) * (x - x3) * (x - x3) * m2 / (6 * h2)
  let v1 := 0
  let v2 := -1 * (y2 - h2 * h2 * m2 / 6) * (x - x3) / h2
  let v3 := y3 * (x - x2) / h2
  v0 + v1 + v2 + v3

def spline_m1 (c1 c2 u1 l2 : ℚ) : ℚ := (c1 / u1 - c2 / 2) / (2 / u1 - l2 / 2)

def spline_m2 (c1 c2 u1 l2 : ℚ) : ℚ := (c1 / 2 - c2 / l2) / (u1 / 2 - 2 / l2)

def spline_c1 (yi : List ℚ) (h0 h1 : ℚ) : ℚ :=
  let y0 := yi.getD 0 0
  let y1 := yi.getD 1 0
  let y2 := yi.getD 2 0
  6 / (h0 + h1) * ((y2 - y1) / h1 - (y1 - y0) / h0)

def spline_c2 (yi : List ℚ) (h1 h2 : ℚ) : ℚ :=
  let y1 := yi.getD 1 0
  let y2 := yi.getD 2 0
  let y3 := yi.getD 3 0
  6 / (h1 + h2) * ((y3 - y2) / h2 - (y2 - y1) / h1)

/-- `spline_lu`: returns `(h0, h1, h2, l1, u1, l2, u2)`. -/
def spline_lu (xi : List ℚ) : ℚ × ℚ × ℚ × ℚ × ℚ × ℚ × ℚ :=
  let x0 := xi.getD 0 0
  let x1 := xi.getD 1 0
  let x2 := xi.getD 2 0
  let x3 := xi.getD 3 0
  let h0 := x1 - x0
  let h1 := x2 - x1
  let h2 := x3 - x2
  (h0, h1, h2, h0 / (h1 + h0), h1 / (h1 + h0), h1 / (h2 + h1), h2 / (h2 + h1))

/-- `spline`: cubic-spline interpolation over four points (the callers
always pass consecutive integer `xi`, so every divisor below is nonzero;
`ℚ` division by zero yielding 0 is never exercised). -/
def spline (xi yi xo yo : List ℚ) : Except String (List ℚ) :=
  if xi.length ≠ 4 then .error "invalid xi"
  else if yi.length ≠ 4 then .error "invalid yi"
  else if xo.length = 0 then .error "invalid xo"
  else if yo.length ≠ xo.length then .error "invalid yo"
  else
    let x0 := xi.getD 0 0
    let x1 := xi.getD 1 0
    let x2 := xi.getD 2 0
    let x3 := xi.getD 3 0
    let y0 := yi.getD 0 0
    let y1 := yi.getD 1 0
    let y2 := yi.getD 2 0
    let y3 := yi.getD 3 0
    let lu := spline_lu xi
    let h0 := lu.1
    let h1 := lu.2.1
    let h2 := lu.2.2.1
    let u1 := lu.2.2.2.2.1
    let l2 := lu.2.2.2.2.2.1
    let c1 := spline_c1 yi h0 h1
    let c2 := spline_c2 yi h1 h2
    let m1 := spline_m1 c1 c2 u1 l2
    let m2 := spline_m2 c1 c2 u1 l2
    .ok (xo.map fun v =>
      if v ≤ x1 then spline_z0 m1 h0 x0 x1 y0 y1 v
      else if v ≤ x2 then spline_z1 m1 m2 h1 x1 x2 y1 y2 v
      else spline_z2 m2 h2 x2 x3 y2 y3 v)

/-- The body of `resampleChannel`'s position loop
(`for x := x0; x < float64(last); x += step`).  An out-of-range input index
(`yi0 < 0`, possible only for inconsistent counter states) panics in Go and
is an error here; `consumed` is `int(uint64(x)-org) + 1` of the last
iteration. -/
def resampleChannelLoop (ipcm : List ℤ) (org : ℕ) (last step : ℚ) :
    ℕ → ℚ → List ℤ → ℤ → Except String (List ℤ × ℤ)
  | 0, _, _, _ => .error "panic: resample loop fuel exhausted"
  | fuel + 1, x, opcm, consumed =>
    if x < last then
      let xi0 : ℚ := ((⌊x⌋ : ℤ) : ℚ)
      let yi0 : ℤ := ⌊x⌋ - (org : ℤ)
      if 0 ≤ yi0 ∧ yi0.toNat + 3 < ipcm.length then
        let xi : List ℚ := [xi0, xi0 + 1, xi0 + 2, xi0 + 3]
        let yi : List ℚ := [(ipcm.getD yi0.toNat 0 : ℤ), (ipcm.getD (yi0.toNat + 1) 0 : ℤ),
          (ipcm.getD (yi0.toNat + 2) 0 : ℤ), (ipcm.getD (yi0.toNat + 3) 0 : ℤ)]
        match spline xi yi [x] [0] with
        | .error e => .error e
        | .ok yo =>
            resampleChannelLoop ipcm org last step fuel (x + step)
              (opcm ++ [int16OfQ (yo.getD 0 0)]) (⌊x⌋ - (org : ℤ) + 1)
      else .error "panic: index out of range"
    else .ok (opcm, consumed)

/-- `resampleChannel`.  The fuel `(org + len + 1) * (osr + 1) + 1` strictly
exceeds the iteration count whenever `isr ≥ 1` (each step advances `x` by
`isr/osr ≥ 1/osr`, and at most `last ≤ org + len` must be covered);
`isr = 0` cannot come from `NewGoResampler`. -/
def resampleChannel (ipcm : List ℤ) (isr osr : ℕ) (written org : ℕ) :
    Except String (List ℤ × ℤ) :=
  if ipcm.length ≤ 16 then .ok ([], 0)
  else
    let available : ℕ := ipcm.length - 16
    let step : ℚ := (isr : ℚ) / (osr : ℚ)
    let x0 : ℚ := step * (written : ℚ)
    let last : ℚ := ((org + available : ℕ) : ℚ)
    resampleChannelLoop ipcm org last step ((org + ipcm.length + 1) * (osr + 1) + 1) x0 [] 0

/-- `resampleMerge`: interleave the two channels back into little-endian
bytes (`right` may be `nil`; Go would panic were `right` shorter than
`left`, which cannot happen for channels resampled from one buffer). -/
def resampleMerge (left : List ℤ) (right : Option (List ℤ)) : List ℕ :=
  (List.range left.length).foldl
    (fun acc i =>
      acc ++ int16Bytes (left.getD i 0) ++
        (match right with
         | none => []
         | some r => int16Bytes (r.getD i 0)))
    []

/-- `goResampler`: per-channel tail caches and monotone `uint64` counters
(`ℕ` here; one call advances them by at most the buffer length, so the
wrap at `2^64` is unreachable). -/
structure GoResampler where
  channels : ℕ
  isr : ℕ
  osr : ℕ
  lcache : List ℤ
  rcache : List ℤ
  lws : ℕ
  rws : ℕ
  lcs : ℕ
  rcs : ℕ
deriving DecidableEq

/-- `NewGoResampler` (Go takes `int`s; the argument checks make the stored
fields positive, hence `ℤ` arguments validated into `ℕ` fields). -/
def NewGoResampler (channels sampleRate nSampleRate : ℤ) : Except String GoResampler :=
  if channels < 1 ∨ channels > 2 then .error ("invalid channels=" ++ toString channels)
  else if sampleRate ≤ 0 then .error ("invalid sampleRate=" ++ toString sampleRate)
  else if nSampleRate ≤ 0 then .error ("invalid nSampleRate=" ++ toString nSampleRate)
  else .ok ⟨channels.toNat, sampleRate.toNat, nSampleRate.toNat, [], [], 0, 0, 0, 0⟩

/-- `goResampler.Handle`.  The returned pair is (mutated receiver, output
bytes); an `Except.error` is a Go error return or panic, in both of which
no mutation has been applied to the receiver. -/
def GoResampler.Handle (v : GoResampler) (pcm : List ℕ) :
    Except String (GoResampler × List ℕ) :=
  if pcm.length = 0 then .error "empty pcm"
  else if pcm.length % (2 * v.channels) ≠ 0 then
    .error ("invalid pcm, should mod(" ++ toString (2 * v.channels) ++ ")")
  else if v.isr = v.osr then .ok (v, pcm)
  else if pcm.length / 2 / v.channels < 4 then
    .error ("invalid pcm, atleast 4samples, actual " ++
      toString (pcm.length / 2 / v.channels) ++ "samples")
  else
    match resampleInitChannel pcm v.channels 0, resampleInitChannel pcm v.channels 1 with
    | none, _ => .error "panic: no channel 0"
    | some lraw, rrawOpt =>
      if rrawOpt.isSome ∧ lraw.length ≠ (rrawOpt.getD []).length then
        .error ("invalid pcm, L" ++ toString lraw.length ++ "!=" ++
          toString (rrawOpt.getD []).length)
      else
        let ipcmLeft := v.lcache ++ lraw
        match resampleChannel ipcmLeft v.isr v.osr v.lws v.lcs with
        | .error e => .error e
        | .ok (opcmLeft, consumedL) =>
          let lws' := v.lws + opcmLeft.length
          let lcs' := v.lcs + consumedL.toNat
          let lcache' := if consumedL < (ipcmLeft.length : ℤ) then
              ipcmLeft.drop consumedL.toNat else []
          match rrawOpt with
          | none =>
              .ok ({ v with lcache := lcache', lws := lws', lcs := lcs' },
                resampleMerge opcmLeft none)
          | some rraw =>
            let ipcmRight := v.rcache ++ rraw
            match resampleChannel ipcmRight v.isr v.osr v.rws v.rcs with
            | .error e => .error e
            | .ok (opcmRight, consumedR) =>
              let rws' := v.rws + opcmRight.length
              let rcs' := v.rcs + consumedR.toNat
              let rcache' := if consumedR < (ipcmRight.length : ℤ) then
                  ipcmRight.drop consumedR.toNat else []
              .ok ({ v with
                      lcache := lcache'
                      lws := lws'
                      lcs := lcs'
                      rcache := rcache'
                      rws := rws'
                      rcs := rcs' },
                resampleMerge opcmLeft (some opcmRight))

end audio

/-! ## The transcoder: `pkg/audio` (`converter.go`)

The opus codec is the external dependency the spec scopes out: the decoder
is passed in as a pure function `opusDecode`, the streaming encoder as
`encode` (`Converter.parseFrames` hands it one chunk of samples and
forwards whatever bytes it produces). -/

namespace audio

/-- Saturating linear gain.  Go computes `float32(sample) * f` and compares
against the int16 bounds; for the factors the code uses (3 and 8) the
product of an int16 by `f` is exactly representable in `float32`, so the
integer computation below is bit-exact. -/
def gain (input : List ℤ) (f : ℤ) : List ℤ :=
  input.map fun sample =>
    let adjustedSample := sample * f
    if adjustedSample > 32767 then 32767
    else if adjustedSample < -32768 then -32768
    else adjustedSample

/-- `bytesToInt16` pairs little-endian bytes; on a trailing odd byte
`binary.Read` fails with `unexpected EOF` (not `EOF`), and the Go function
then discards everything and returns `nil`. -/
def bytesToInt16Pairs : List ℕ → List ℤ
  | b0 :: b1 :: rest => le16 b0 b1 :: bytesToInt16Pairs rest
  | _ => []

def bytesToInt16 (b : List ℕ) : List ℤ :=
  if b.length % 2 = 0 then bytesToInt16Pairs b else []

/-- `int16ToBytes` / `Pcm16decode`: little-endian bytes of each sample. -/
def int16ToBytes (s : List ℤ) : List ℕ :=
  s.foldl (fun acc v => acc ++ int16Bytes v) []

def base64Alphabet : String :=
  "ABCDEFGHIJKLMNOPQRSTUVWXYZabcdefghijklmnopqrstuvwxyz0123456789+/"

def base64Char (n : ℕ) : Char := base64Alphabet.toList.getD n 'A'

/-- RFC 4648 standard base64 (`base64.StdEncoding.EncodeToString`). -/
def base64Encode : List ℕ → String
  | [] => ""
  | [a] =>
      let a := a % 256
      String.mk [base64Char (a / 4), base64Char (a % 4 * 16)] ++ "=="
  | [a, b] =>
      let a := a % 256
      let b := b % 256
      String.mk [base64Char (a / 4), base64Char (a % 4 * 16 + b / 16),
        base64Char (b % 16 * 4)] ++ "="
  | a :: b :: c :: rest =>
      let a := a % 256
      let b := b % 256
      let c := c % 256
      String.mk [base64Char (a / 4), base64Char (a % 4 * 16 + b / 16),
        base64Char (b % 16 * 4 + c / 64), base64Char (c % 64)] ++ base64Encode rest

/-- `audio.Converter` (the opus `Encoder`/`Decoder` instances are external
and live outside the model; `cb` is threaded as the list of emitted
frames). -/
structure Converter where
  SampleRate : ℤ
  DownSampleRate : ℤ
  Channels : ℤ
  FrameSize : ℤ
  FrameDuration : ℤ
  DownDuration : ℤ
  upReSampler : GoResampler
  downReSampler : GoResampler
  delta : List ℤ
deriving DecidableEq

/-- `NewConverter` (the Go function panics when `NewGoResampler` or the
opus construction fails; the panic is the `Except.error`). -/
def NewConverter (sampleRate channels frameDuration frameSize : ℤ) :
    Except String Converter :=
  match NewGoResampler channels sampleRate 24000 with
  | .error e => .error ("panic: " ++ e)
  | .ok upSampler =>
    match NewGoResampler channels 24000 24000 with
    | .error e => .error ("panic: " ++ e)
    | .ok downSampler =>
        .ok ⟨sampleRate, 24000, channels, frameSize, frameDuration, frameDuration,
          upSampler, downSampler, []⟩

/-- `Converter.opus2pcm`: decode one opus frame (external codec), apply
gain 3, serialise to little-endian bytes. -/
def Converter.opus2pcm (opusDecode : List ℕ → Except String (List ℤ))
    (_c : Converter) (audioData : List ℕ) : Except String (List ℕ) :=
  if audioData.length = 0 then .ok []
  else
    match opusDecode audioData with
    | .error e => .error e
    | .ok pcm => .ok (int16ToBytes (gain pcm 3))

/-- `Converter.OpusToPcmBase64` (device → upstream path): decode, gain,
resample to 24 kHz, base64.  Returns the mutated converter (the
up-resampler's caches advanced) with the base64 string. -/
def Converter.OpusToPcmBase64 (opusDecode : List ℕ → Except String (List ℤ))
    (c : Converter) (opusData : List ℕ) : Except String (Converter × String) :=
  if opusData.length = 0 then .error "empty opus data"
  else
    match c.opus2pcm opusDecode opusData with
    | .error e => .error ("opus decode failed, err: " ++ e)
    | .ok pcmData =>
      match c.upReSampler.Handle pcmData with
      | .error e => .error ("upReSampler handle failed, err: " ++ e)
      | .ok (up', resampledData) =>
          .ok ({ c with upReSampler := up' }, base64Encode resampledData)

/-- The frame loop of `Converter.parseFrames`:
`for i := 0; i < len(delta); i += chunk`.  Fuel `delta.length + 1` covers
every positive chunk; `chunk = 0` diverges in Go and returns short here
(unreachable: `handleHelloEvent` rejects `frame_duration = 0`). -/
def parseFramesLoop (encode : List ℤ → List ℕ) (delta : List ℤ) (chunk : ℕ) :
    ℕ → ℕ → List (List ℕ)
  | 0, _ => []
  | fuel + 1, i =>
    if i < delta.length then
      encode ((delta.drop i).take chunk) :: parseFramesLoop encode delta chunk fuel (i + chunk)
    else []

/-- `Converter.parseFrames` (upstream → device path): append the
gain-adjusted samples to the leftover buffer, split off the trailing
remainder modulo one chunk, encode each full chunk in order through the
callback, and keep the remainder as the new leftover. -/
def Converter.parseFrames (encode : List ℤ → List ℕ) (c : Converter)
    (audioDelta : List ℕ) : Converter × List (List ℕ) :=
  let delta := c.delta ++ gain (bytesToInt16 audioDelta) 8
  let chunk : ℤ := c.DownDuration * c.DownSampleRate / 1000
  let remLen : ℕ := ((delta.length : ℤ) % chunk).toNat
  let rest := if (delta.length : ℤ) % chunk ≠ 0 then delta.drop (delta.length - remLen) else []
  let delta' := if (delta.length : ℤ) % chunk ≠ 0 then delta.take (delta.length - remLen) else delta
  let frames := parseFramesLoop encode delta' chunk.toNat (delta'.length + 1) 0
  ({ c with delta := rest }, frames)

/-- Standard base64 decoding (`base64.StdEncoding.DecodeString`): strict
4-character groups with `=` padding; anything else is a
`CorruptInputError`. -/
def base64DecodeChar (c : Char) : Option ℕ :=
  if c ∈ base64Alphabet.toList then some (base64Alphabet.toList.indexOf c) else none

def base64DecodeLoop : List Char → Except String (List ℕ)
  | [] => .ok []
  | c1 :: c2 :: c3 :: c4 :: rest => do
      match base64DecodeChar c1, base64DecodeChar c2 with
      | some n1, some n2 =>
        if c3 = '=' ∧ c4 = '=' ∧ rest = [] then
          .ok [n1 * 4 + n2 / 16]
        else if c4 = '=' ∧ rest = [] then
          match base64DecodeChar c3 with
          | some n3 => .ok [n1 * 4 + n2 / 16, n2 % 16 * 16 + n3 / 4]
          | none => .error "illegal base64 data"
        else
          match base64DecodeChar c3, base64DecodeChar c4 with
          | some n3, some n4 => do
              let tail ← base64DecodeLoop rest
              .ok ([n1 * 4 + n2 / 16, n2 % 16 * 16 + n3 / 4, n3 % 4 * 64 + n4] ++ tail)
          | _, _ => .error "illegal base64 data"
      | _, _ => .error "illegal base64 data"
  | _ => .error "illegal base64 data"

def base64Decode (s : String) : Except String (List ℕ) :=
  base64DecodeLoop s.toList

/-- `Converter.ResolvePCM` (upstream → device path): base64-decode the
delta, then chunk it through `parseFrames`; only the base64 decode can
fail. -/
def Converter.ResolvePCM (encode : List ℤ → List ℕ) (c : Converter)
    (base64Str : String) : Except String (Converter × List (List ℕ)) :=
  match base64Decode base64Str with
  | .error e => .error ("base64 decode failed, err: " ++ e)
  | .ok delta => .ok (c.parseFrames encode delta)

end audio

/-! ## The translator: `handler/openai` (Go package `openai`)

Wall-clock reads (`time.Now().UnixMilli()`) are passed in as `now : ℤ`,
`utils.UniqueID()` as `fresh : String`, configuration values as plain
arguments, and the upstream socket write (`SendToRealtimeAPI`) is the
`sent` field of the dispatch result.  A recovered panic yields the
dispatcher's zero results `(nil, false)` with no mutation applied, exactly
as the Go `defer`/`recover` does for these handlers (each panics before
touching the receiver). -/

namespace handler

/-- `handler/openai.ClientConfig`. -/
structure ClientConfig where
  Format : String
  SampleRate : ℤ
  Channels : ℤ
  FrameDuration : ℤ
  FrameSize : ℤ
deriving DecidableEq

/-- `handler/openai.ApiSession` (context and cancel function are part of
the runtime, not the data model). -/
structure ApiSession where
  CliConfig : Option ClientConfig
  defaultVoice : String
  modelId : String
  ID : String
  Object : String
  RtSession : Option openai.ServerSession

/-- One entry of the bounded write queue (`chan any` receives device
server events as values and raw opus frames as `[]byte`). -/
inductive QueueItem where
  | event (e : xiaozhi.ServerEvent)
  | bytes (b : List ℕ)

/-- `handler/openai.XiaozhiHandler` (sockets and context are runtime). -/
structure XiaozhiHandler where
  sess : ApiSession
  closed : Bool
  writeQueue : List QueueItem
  audioConverter : Option audio.Converter
  firstDeltaTs : ℤ
  totalOpusDuration : ℤ

namespace XiaozhiHandler

def GetSessionId (r : XiaozhiHandler) : String := r.sess.ID

def resetFrameTs (r : XiaozhiHandler) : XiaozhiHandler :=
  { r with firstDeltaTs := 0, totalOpusDuration := 0 }

def setFrameTs (r : XiaozhiHandler) (now : ℤ) : XiaozhiHandler :=
  if r.firstDeltaTs ≠ 0 then r else { r with firstDeltaTs := now }

def getWait (r : XiaozhiHandler) (now : ℤ) : ℤ :=
  if r.firstDeltaTs = 0 then 0
  else if r.totalOpusDuration = 0 then 0
  else if r.totalOpusDuration - (now - r.firstDeltaTs) > 0 then
    r.totalOpusDuration - (now - r.firstDeltaTs)
  else 0

/-- `addOpusDuration`: `r.totalOpusDuration += r.sess.CliConfig.FrameDuration`
(a nil `CliConfig` — no hello yet — would be a Go nil dereference). -/
def addOpusDuration (r : XiaozhiHandler) : Except String XiaozhiHandler :=
  match r.sess.CliConfig with
  | none => .error "panic: nil CliConfig"
  | some cfg => .ok { r with totalOpusDuration := r.totalOpusDuration + cfg.FrameDuration }

/-- `WriteRespEvent`: refuse when closed; device server events are enqueued
as they are, anything else is a binary opus frame, which also advances the
pacing clock by one frame duration. -/
def WriteRespEvent (r : XiaozhiHandler) (event : QueueItem) :
    Except String (XiaozhiHandler × Option String) :=
  if r.closed then .ok (r, some "write queue closed")
  else
    match event with
    | .event _ => .ok ({ r with writeQueue := r.writeQueue ++ [event] }, none)
    | .bytes _ =>
      match r.addOpusDuration with
      | .error e => .error e
      | .ok r' => .ok ({ r' with writeQueue := r'.writeQueue ++ [event] }, none)

/-- `handleAsrDone`: enqueue `stt {text: transcript}`, then
`llm {text: strconv.Itoa('😊'), emotion: "happy"}`.  `strconv.Itoa` of a
rune is the decimal string of its code point — `"128522"`, not the emoji
itself.  Returns no further event. -/
def handleAsrDone (w : XiaozhiHandler) (event : openai.ServerEvent) :
    Except String (XiaozhiHandler × Option xiaozhi.ServerEvent) :=
  match event with
  | .conversationItemInputAudioTranscriptionCompleted _ _ _ transcript =>
    let sttEvent : xiaozhi.ServerEvent := .stt ⟨"stt", w.GetSessionId⟩ transcript
    match w.WriteRespEvent (.event sttEvent) with
    | .error e => .error e
    | .ok (w1, _) =>
      let llmEvent : xiaozhi.ServerEvent :=
        .llm ⟨"llm", w1.GetSessionId⟩ (toString (Char.toNat '😊')) "happy"
      match w1.WriteRespEvent (.event llmEvent) with
      | .error e => .error e
      | .ok (w2, _) => .ok (w2, none)
  | _ => .error "panic: interface conversion"

/-- `handleResponseDone`: sleep the pacing wait when positive (the sleep
duration in milliseconds is returned), reset the pacing clock, and hand
back the `tts {state: stop}` event (which the caller writes to the device
queue).  Go reads the wall clock twice in immediate succession; both reads
are the single instant `now`. -/
def handleResponseDone (w : XiaozhiHandler) (now : ℤ) (_event : openai.ServerEvent) :
    ℤ × XiaozhiHandler × xiaozhi.ServerEvent :=
  let sleepMs := if w.getWait now > 0 then w.getWait now else 0
  let w' := w.resetFrameTs
  (sleepMs, w', .tts ⟨"tts", w.GetSessionId⟩ "stop" "" 0)

/-- `handleAudioDelta`: stamp the pacing clock's start on the first delta,
then run the upstream → device transcode path. -/
def handleAudioDelta (encode : List ℤ → List ℕ) (w : XiaozhiHandler) (now : ℤ)
    (event : openai.ServerEvent) :
    Except String (XiaozhiHandler × List (List ℕ) × Option String) :=
  match event with
  | .responseAudioDelta _ _ _ _ _ delta =>
    let w1 := w.setFrameTs now
    match w1.audioConverter with
    | none => .error "panic: nil pointer dereference"
    | some conv =>
      match audio.Converter.ResolvePCM encode conv delta with
      | .error e => .ok ({ w1 with audioConverter := some conv }, [], some e)
      | .ok (conv', frames) => .ok ({ w1 with audioConverter := some conv' }, frames, none)
  | _ => .error "panic: interface conversion"

/-- `handleHelloEvent`: validate the audio params, build the transcoder
(`NewConverter` panics on parameters `NewGoResampler` rejects), store the
client config, and produce the upstream `session.update`. -/
def handleHelloEvent (systemPrompt : String) (fresh : String) (r : XiaozhiHandler)
    (event : xiaozhi.ClientEvent) :
    Except String (XiaozhiHandler × Option openai.ClientEvent × Option String) :=
  match event.getAudioParams with
  | none => .ok (r, none, some "invalid audio params")
  | some p =>
    if p.SampleRate = 0 ∨ p.Channels = 0 ∨ p.Format = "" ∨ p.FrameDuration = 0 then
      .ok (r, none, some "invalid audio params")
    else
      let frameSize := p.FrameDuration * p.SampleRate / 1000
      match audio.NewConverter p.SampleRate p.Channels p.FrameDuration frameSize with
      | .error e => .error e
      | .ok conv =>
        let cliConfig : ClientConfig :=
          ⟨p.Format, p.SampleRate, p.Channels, p.FrameDuration, frameSize⟩
        let r' := { r with
          audioConverter := some conv
          sess := { r.sess with CliConfig := some cliConfig } }
        let pbEvent : openai.ClientEvent := .sessionUpdate ⟨fresh, "session.update", none⟩
          { Modalities := ["text", "audio"]
            Instructions := some systemPrompt
            Voice := some r.sess.defaultVoice
            InputAudioFormat := some "pcm16"
            OutputAudioFormat := some "pcm16"
            InputAudioTranscription := none
            TurnDetection := some ⟨"server_vad", ⟨0, 0, 0⟩⟩
            Tools := []
            ToolChoice := .str "required"
            Temperature := none
            MaxOutputTokens := some 4096
            History := []
            BuiltInTools := ["web_search"] }
        .ok (r', some pbEvent, none)

/-- `handleListenEvent`: state-only, no upstream event, no error. -/
def handleListenEvent (r : XiaozhiHandler) :
    Except String (XiaozhiHandler × Option openai.ClientEvent × Option String) :=
  .ok (r, none, none)

/-- `handleInputAudioBufferAppend`: empty frames are dropped; otherwise the
device → upstream transcode path runs (a nil `audioConverter` — no hello
yet — is a Go nil-pointer panic inside `OpusToPcmBase64`). -/
def handleInputAudioBufferAppend (opusDecode : List ℕ → Except String (List ℤ))
    (fresh : String) (r : XiaozhiHandler) (bytes : List ℕ) :
    Except String (XiaozhiHandler × Option openai.ClientEvent × Option String) :=
  if bytes.length = 0 then .ok (r, none, none)
  else
    match r.audioConverter with
    | none => .error "panic: nil pointer dereference"
    | some conv =>
      match audio.Converter.OpusToPcmBase64 opusDecode conv bytes with
      | .error e => .ok (r, none, some e)
      | .ok (conv', b64Data) =>
          .ok ({ r with audioConverter := some conv' },
            some (.inputAudioBufferAppend ⟨fresh, "input_audio_buffer.append", none⟩ b64Data),
            none)

def handleIotEvent (r : XiaozhiHandler) :
    Except String (XiaozhiHandler × Option openai.ClientEvent × Option String) :=
  .ok (r, none, none)

/-- The result of `DispatchClientEvent`: the `(error, quit)` pair Go
returns, what was written to the upstream socket, and the handler state. -/
structure DispatchResult where
  err : Option String
  quit : Bool
  sent : Option openai.ClientEvent
  handler : XiaozhiHandler

/-- `DispatchClientEvent`.  The switch has cases for `hello`, `listen`,
`append_buffer` and `iot` only: an `abort` event falls through to the
`default` branch, which logs and returns `(nil, false)` without sending
anything upstream.  The deferred `recover` turns a handler panic into the
zero results `(nil, false)`.  When the chosen handler produced an upstream
event and no error, it is sent (`SendToRealtimeAPI`); otherwise the error
(possibly nil) is returned with `quit = false`. -/
def DispatchClientEvent (opusDecode : List ℕ → Except String (List ℤ))
    (systemPrompt : String) (fresh : String) (r : XiaozhiHandler)
    (ev : xiaozhi.ClientEvent) : DispatchResult :=
  let run : Except String (XiaozhiHandler × Option openai.ClientEvent × Option String) :=
    match ev with
    | .hello _ => handleHelloEvent systemPrompt fresh r ev
    | .listen .. => handleListenEvent r
    | .appendBuffer _ bytes => handleInputAudioBufferAppend opusDecode fresh r bytes
    | .iot .. => handleIotEvent r
    | .abort .. => .ok (r, none, none)
  match run with
  | .error _ => ⟨none, false, none, r⟩
  | .ok (r', rtEvent, err) =>
    match rtEvent, err with
    | none, e => ⟨e, false, none, r'⟩
    | some _, some e => ⟨some e, false, none, r'⟩
    | some ev', none => ⟨none, false, some ev', r'⟩

end XiaozhiHandler

end handler

/-! ## `encoding/json` at byte level, for `ServerToolChoice.UnmarshalJSON`

`ServerToolChoice.UnmarshalJSON` slices its raw input bytes, so claims
about it need a byte-level model of `json.Unmarshal` into `ToolChoice`: a
JSON syntax parser over characters (fuel = input length; every step
consumes at least one character) plus Go's decode-into-struct semantics
(`null` is a no-op, missing keys keep prior values, type mismatches are
errors).  Key matching is exact-case here; Go additionally matches
case-insensitively, which no theorem below exercises. -/

namespace openai

def isJsonWs (c : Char) : Bool := c = ' ' ∨ c = '\t' ∨ c = '\n' ∨ c = '\r'

def skipWs : List Char → List Char
  | c :: rest => if isJsonWs c then skipWs rest else c :: rest
  | [] => []

def isJsonDigit (c : Char) : Bool := '0' ≤ c ∧ c ≤ '9'

def hexVal (c : Char) : Option ℕ :=
  if '0' ≤ c ∧ c ≤ '9' then some (c.toNat - '0'.toNat)
  else if 'a' ≤ c ∧ c ≤ 'f' then some (c.toNat - 'a'.toNat + 10)
  else if 'A' ≤ c ∧ c ≤ 'F' then some (c.toNat - 'A'.toNat + 10)
  else none

/-- The body of a JSON string after the opening quote. -/
def parseStringRest : ℕ → List Char → Except String (List Char × List Char)
  | 0, _ => .error "unexpected end of JSON input"
  | _, [] => .error "unexpected end of JSON input"
  | fuel + 1, c :: rest =>
    if c = '"' then .ok ([], rest)
    else if c = '\\' then
      match rest with
      | [] => .error "unexpected end of JSON input"
      | e :: rest' =>
        if e = 'u' then
          match rest' with
          | h1 :: h2 :: h3 :: h4 :: rest'' =>
            match hexVal h1, hexVal h2, hexVal h3, hexVal h4 with
            | some v1, some v2, some v3, some v4 =>
              (parseStringRest fuel rest'').map fun (cs, r) =>
                (Char.ofNat (v1 * 4096 + v2 * 256 + v3 * 16 + v4) :: cs, r)
            | _, _, _, _ => .error "invalid character in string escape code"
          | _ => .error "unexpected end of JSON input"
        else
          match
            (if e = '"' then some '"' else if e = '\\' then some '\\'
             else if e = '/' then some '/' else if e = 'b' then some (Char.ofNat 8)
             else if e = 'f' then some (Char.ofNat 12) else if e = 'n' then some '\n'
             else if e = 'r' then some '\r' else if e = 't' then some '\t' else none) with
          | some d => (parseStringRest fuel rest').map fun (cs, r) => (d :: cs, r)
          | none => .error "invalid character in string escape code"
    else (parseStringRest fuel rest).map fun (cs, r) => (c :: cs, r)

/-- A JSON numeral (`-?int frac? exp?`, no leading zeros), as a rational. -/
def parseNumber (s : List Char) : Except String (ℚ × List Char) :=
  let (neg, s1) := if s.head? = some '-' then (true, s.tail) else (false, s)
  let intDigits := s1.takeWhile isJsonDigit
  let s2 := s1.drop intDigits.length
  if intDigits.length = 0 then .error "invalid number"
  else if intDigits.length > 1 ∧ intDigits.head? = some '0' then .error "invalid number"
  else
    let intVal : ℕ := intDigits.foldl (fun acc c => acc * 10 + (c.toNat - '0'.toNat)) 0
    let (fracDigits, s3) :=
      if s2.head? = some '.' then
        let fd := (s2.tail).takeWhile isJsonDigit
        (fd, (s2.tail).drop fd.length)
      else ([], s2)
    if s2.head? = some '.' ∧ fracDigits.length = 0 then .error "invalid number"
    else
      let mant : ℕ := fracDigits.foldl (fun acc c => acc * 10 + (c.toNat - '0'.toNat)) intVal
      let hasExp := s3.head? = some 'e' ∨ s3.head? = some 'E'
      let (expNeg, s4) :=
        if hasExp then
          (if (s3.tail).head? = some '-' then (true, (s3.tail).tail)
           else if (s3.tail).head? = some '+' then (false, (s3.tail).tail)
           else (false, s3.tail))
        else (false, s3)
      let expDigits := if hasExp then s4.takeWhile isJsonDigit else []
      let s5 := if hasExp then s4.drop expDigits.length else s4
      if hasExp ∧ expDigits.length = 0 then .error "invalid number"
      else
        let expVal : ℕ := expDigits.foldl (fun acc c => acc * 10 + (c.toNat - '0'.toNat)) 0
        let e : ℤ := (if expNeg then -(expVal : ℤ) else (expVal : ℤ)) - fracDigits.length
        let q : ℚ := (mant : ℚ) * (10 : ℚ) ^ e
        .ok (if neg then -q else q, s5)

mutual

/-- One JSON value, leading whitespace allowed. -/
def parseValue : ℕ → List Char → Except String (Json × List Char)
  | 0, _ => .error "unexpected end of JSON input"
  | fuel + 1, s =>
    match skipWs s with
    | [] => .error "unexpected end of JSON input"
    | c :: rest =>
      if c = 'n' then
        match rest with
        | 'u' :: 'l' :: 'l' :: r => .ok (.null, r)
        | _ => .error "invalid character"
      else if c = 't' then
        match rest with
        | 'r' :: 'u' :: 'e' :: r => .ok (.bool true, r)
        | _ => .error "invalid character"
      else if c = 'f' then
        match rest with
        | 'a' :: 'l' :: 's' :: 'e' :: r => .ok (.bool false, r)
        | _ => .error "invalid character"
      else if c = '"' then
        (parseStringRest (rest.length + 1) rest).map fun (cs, r) => (.str (String.mk cs), r)
      else if c = '\x5b' then
        match skipWs rest with
        | '\x5d' :: r => .ok (.arr [], r)
        | _ => (parseElems fuel rest).map fun (xs, r) => (.arr xs, r)
      else if c = '\x7b' then
        match skipWs rest with
        | '\x7d' :: r => .ok (.obj [], r)
        | _ => (parseFields fuel rest).map fun (kvs, r) => (.obj kvs, r)
      else if c = '-' ∨ isJsonDigit c then
        (parseNumber (c :: rest)).map fun (q, r) => (.num q, r)
      else .error "invalid character"

/-- Array elements after `[` (at least one). -/
def parseElems : ℕ → List Char → Except String (List Json × List Char)
  | 0, _ => .error "unexpected end of JSON input"
  | fuel + 1, s =>
    match parseValue fuel s with
    | .error e => .error e
    | .ok (v, r) =>
      match skipWs r with
      | ',' :: r' => (parseElems fuel r').map fun (xs, r'') => (v :: xs, r'')
      | '\x5d' :: r' => .ok ([v], r')
      | _ => .error "invalid character after array element"

/-- Object members after the opening brace (at least one). -/
def parseFields : ℕ → List Char → Except String (List (String × Json) × List Char)
  | 0, _ => .error "unexpected end of JSON input"
  | fuel + 1, s =>
    match skipWs s with
    | '"' :: r =>
      match parseStringRest (r.length + 1) r with
      | .error e => .error e
      | .ok (key, r1) =>
        match skipWs r1 with
        | ':' :: r2 =>
          match parseValue fuel r2 with
          | .error e => .error e
          | .ok (v, r3) =>
            match skipWs r3 with
            | ',' :: r4 =>
                (parseFields fuel r4).map fun (kvs, r5) => ((String.mk key, v) :: kvs, r5)
            | '\x7d' :: r4 => .ok ([(String.mk key, v)], r4)
            | _ => .error "invalid character after object member"
        | _ => .error "invalid character in object: expected colon"
    | _ => .error "invalid character in object: expected string key"

end

/-- `json.Unmarshal`'s syntax pass: one value and nothing but whitespace
after it. -/
def goJsonParse (data : List Char) : Except String Json :=
  match parseValue (data.length + 1) data with
  | .error e => .error e
  | .ok (v, rest) =>
    match skipWs rest with
    | [] => .ok v
    | _ => .error "invalid character after top-level value"

/-- Decode a JSON value into a `ToolFunction` already holding `init`
(Go mutates the existing struct: missing keys and `null` keep what is
there, a mismatched type is an `UnmarshalTypeError`). -/
def goDecToolFunction (init : ToolFunction) (j : Json) : Except String ToolFunction :=
  match j with
  | .null => .ok init
  | .obj kvs =>
    match jget kvs "name" with
    | none => .ok init
    | some .null => .ok init
    | some (.str s) => .ok ⟨s⟩
    | some _ => .error "cannot unmarshal into string"
  | _ => .error "cannot unmarshal into ToolFunction"

/-- Decode a JSON value into a `ToolChoice` already holding `init`. -/
def goDecToolChoice (init : ToolChoice) (j : Json) : Except String ToolChoice :=
  match j with
  | .null => .ok init
  | .obj kvs =>
    match
      (match jget kvs "type" with
       | none => Except.ok init.Type'
       | some Json.null => Except.ok init.Type'
       | some (Json.str s) => Except.ok s
       | some _ => Except.error "cannot unmarshal into string" : Except String String) with
    | .error e => .error e
    | .ok t =>
      match
        (match jget kvs "function" with
         | none => Except.ok init.Function
         | some j' => goDecToolFunction init.Function j' : Except String ToolFunction) with
      | .error e => .error e
      | .ok f => .ok ⟨t, f⟩
  | _ => .error "cannot unmarshal into ToolChoice"

/-- `json.Unmarshal(data, &m.Function)`. -/
def goUnmarshalToolChoice (init : ToolChoice) (data : List Char) : Except String ToolChoice :=
  match goJsonParse data with
  | .error e => .error e
  | .ok j => goDecToolChoice init j

/-- `ServerToolChoice.UnmarshalJSON`, byte level: try to unmarshal into
`m.Function`; on failure strip at most one leading and one trailing
double-quote byte from the raw input into `m.String` and reset
`m.Function`.  Returns `nil` (modelled `Option.none`) in both branches.
The failure branch indexes `data[0]` and `data[len(data)-1]`, so empty
input — and the single byte `"`, empty after the first strip — panic
(the `Except.error`). -/
def ServerToolChoice.unmarshalJSONBytes (m : ServerToolChoice) (data : List Char) :
    Except String (ServerToolChoice × Option String) :=
  match goUnmarshalToolChoice m.Function data with
  | .ok f => .ok ({ m with Function := f }, none)
  | .error _ =>
    match data with
    | [] => .error "panic: runtime error: index out of range"
    | _ :: _ =>
      let d1 := if data.head? = some '"' then data.tail else data
      match d1 with
      | [] => .error "panic: runtime error: index out of range"
      | _ :: _ =>
          .ok (⟨String.mk (if d1.getLast? = some '"' then d1.dropLast else d1),
            ToolChoice.zero⟩, none)

end openai

/-! ## Concrete fixtures shared by the claim theorems -/

/-- A freshly connected handler: no hello yet (`CliConfig` and
`audioConverter` nil), pacing clock zero, queue open and empty. -/
def handler0 : handler.XiaozhiHandler :=
  ⟨⟨none, "voice-a", "step-1o-audio", "", "realtime.session", none⟩, false, [], none, 0, 0⟩

/-- A stand-in for the external opus decoder. -/
def opusDecode0 : List ℕ → Except String (List ℤ) := fun _ => .ok []

/-! ## C1 — pacing at `response.done` -/

/-- C1: when the translator handles an upstream `response.done` event it
sleeps `total_emitted_audio_ms − (now − first_delta_wall_ms)` milliseconds
exactly when that is positive and a first delta was stamped
(`firstDeltaTs ≠ 0`) and audio was emitted (`totalOpusDuration ≠ 0`),
sleeps nothing otherwise, resets the pacing clock to `(0, 0)` and produces
the device `tts {state: stop}` event. -/
theorem C1_handleResponseDone_pacing (w : handler.XiaozhiHandler) (now : ℤ)
    (event : openai.ServerEvent) :
    handler.XiaozhiHandler.handleResponseDone w now event =
      ((if w.firstDeltaTs ≠ 0 ∧ w.totalOpusDuration ≠ 0 ∧
          0 < w.totalOpusDuration - (now - w.firstDeltaTs)
        then w.totalOpusDuration - (now - w.firstDeltaTs) else 0),
       { w with firstDeltaTs := 0, totalOpusDuration := 0 },
       .tts ⟨"tts", w.sess.ID⟩ "stop" "" 0) := by
  unfold handler.XiaozhiHandler.handleResponseDone handler.XiaozhiHandler.getWait
    handler.XiaozhiHandler.resetFrameTs handler.XiaozhiHandler.GetSessionId
  split_ifs <;> simp_all

/-! ## C2 — device `abort` events -/

/-- C2 counterexample: dispatching a device `abort` event sends nothing to
the upstream connection (`sent = none`), returns no error and does not
quit — the dispatch switch has no `abort` case, so the claim that a
`response.cancel` client event is sent is false. -/
theorem C2_abort_counterexample :
    handler.XiaozhiHandler.DispatchClientEvent opusDecode0 "prompt" "evt_1" handler0
        (.abort ⟨"abort", 0, "", "", none⟩ "wake_word_detected") =
      ⟨none, false, none, handler0⟩ := rfl

/-- C2 amended: an `abort` event falls through to the dispatch switch's
`default` branch: no upstream client event is sent, no error is returned,
`quit` is false, and the handler state is unchanged. -/
theorem C2_abort_is_ignored (opusDecode : List ℕ → Except String (List ℤ))
    (systemPrompt fresh : String) (r : handler.XiaozhiHandler)
    (base : xiaozhi.ClientEventBase) (reason : String) :
    handler.XiaozhiHandler.DispatchClientEvent opusDecode systemPrompt fresh r
        (.abort base reason) = ⟨none, false, none, r⟩ := rfl

/-! ## C3 — binary audio before `hello` -/

/-- C3 counterexample: a non-empty binary frame dispatched before any
`hello` (the audio converter is still nil) yields `err = none` — no error
is returned, so no `error` device event is written — refuting the claim
that dispatching returns an error.  (The nil-converter panic is swallowed
by the dispatch boundary's `recover`.) -/
theorem C3_audio_before_hello_counterexample :
    handler.XiaozhiHandler.DispatchClientEvent opusDecode0 "prompt" "evt_1" handler0
        (.appendBuffer ⟨"append.buffer", 0, "", "", none⟩ [37]) =
      ⟨none, false, none, handler0⟩ := rfl

/-- C3 amended: dispatching a non-empty binary frame before `hello` panics
on the nil audio converter inside `OpusToPcmBase64`; the dispatch
boundary's deferred `recover` swallows the panic and returns the zero
results `(nil, false)`: no error device event is written, nothing is sent
upstream, the handler state is unchanged and the connection stays open
(`quit = false`).  The frame is dropped silently rather than rejected. -/
theorem C3_audio_before_hello_swallowed (opusDecode : List ℕ → Except String (List ℤ))
    (systemPrompt fresh : String) (r : handler.XiaozhiHandler)
    (base : xiaozhi.ClientEventBase) (bytes : List ℕ)
    (hconv : r.audioConverter = none) (hne : bytes ≠ []) :
    handler.XiaozhiHandler.DispatchClientEvent opusDecode systemPrompt fresh r
        (.appendBuffer base bytes) = ⟨none, false, none, r⟩ := by
  unfold handler.XiaozhiHandler.DispatchClientEvent
    handler.XiaozhiHandler.handleInputAudioBufferAppend
  rw [hconv]
  simp [List.length_eq_zero, hne]

/-- Witness for C3: the amended theorem applied at a concrete pre-hello
state and a one-byte frame. -/
theorem C3_audio_before_hello_swallowed_witness :
    handler.XiaozhiHandler.DispatchClientEvent opusDecode0 "p" "e" handler0
        (.appendBuffer ⟨"append.buffer", 0, "", "", none⟩ [1, 2]) =
      ⟨none, false, none, handler0⟩ :=
  C3_audio_before_hello_swallowed opusDecode0 "p" "e" handler0
    ⟨"append.buffer", 0, "", "", none⟩ [1, 2] rfl (by simp)

/-! ## C4 — `stt` then `llm` after a completed transcription -/

/-- C4 (code bug): handling
`conversation.item.input_audio_transcription.completed` with transcript
`t` enqueues, in order, `stt {text: t}` and then an `llm` event with
`emotion: "happy"` — but the `llm` text is `"128522"`, `strconv.Itoa` of
the rune `'😊'` (its decimal code point), not the emoji the spec (and the
source's own literal) intend. -/
theorem C4_asrDone_enqueues_decimal_codepoint (w : handler.XiaozhiHandler)
    (base : openai.ServerEventBase) (itemID : String) (contentIndex : ℤ)
    (transcript : String) (hopen : w.closed = false) :
    handler.XiaozhiHandler.handleAsrDone w
        (.conversationItemInputAudioTranscriptionCompleted base itemID contentIndex transcript) =
      .ok ({ w with writeQueue := w.writeQueue ++
          [.event (.stt ⟨"stt", w.sess.ID⟩ transcript),
           .event (.llm ⟨"llm", w.sess.ID⟩ "128522" "happy")] }, none) := by
  unfold handler.XiaozhiHandler.handleAsrDone handler.XiaozhiHandler.WriteRespEvent
    handler.XiaozhiHandler.GetSessionId
  simp [hopen]
  rfl

/-- Witness for C4: the theorem applied at the fresh handler and
transcript `"hi"`. -/
theorem C4_asrDone_witness :
    handler.XiaozhiHandler.handleAsrDone handler0
        (.conversationItemInputAudioTranscriptionCompleted ⟨"", ""⟩ "item_1" 0 "hi") =
      .ok ({ handler0 with writeQueue :=
          [.event (.stt ⟨"stt", ""⟩ "hi"), .event (.llm ⟨"llm", ""⟩ "128522" "happy")] },
        none) :=
  C4_asrDone_enqueues_decimal_codepoint handler0 ⟨"", ""⟩ "item_1" 0 "hi" rfl

/-! ## C7 / C8 — resampler contract -/

/-- C7 counterexample: a mono 16000→24000 resampler handed a single sample
(2 bytes) returns an error — not, as claimed, an empty output with no
error. -/
theorem C7_few_samples_counterexample :
    audio.GoResampler.Handle ⟨1, 16000, 24000, [], [], 0, 0, 0, 0⟩ [0, 0] =
      .error "invalid pcm, atleast 4samples, actual 1samples" := rfl

/-- C7 amended: with `isr ≠ osr`, a well-shaped input buffer holding fewer
than 4 samples per channel makes `Handle` return an error (the Go method
returns before mutating the receiver, so nothing is consumed and the
state is unchanged). -/
theorem C7_few_samples_error (v : audio.GoResampler) (pcm : List ℕ)
    (hneq : v.isr ≠ v.osr) (hne : pcm.length ≠ 0)
    (hmod : pcm.length % (2 * v.channels) = 0)
    (hlt : pcm.length / 2 / v.channels < 4) :
    audio.GoResampler.Handle v pcm =
      .error ("invalid pcm, atleast 4samples, actual " ++
        toString (pcm.length / 2 / v.channels) ++ "samples") := by
  unfold audio.GoResampler.Handle
  simp [hne, hmod, hneq, hlt]

/-- Witness for C7: the amended theorem applied at the counterexample's
input. -/
theorem C7_few_samples_error_witness :
    audio.GoResampler.Handle ⟨1, 16000, 24000, [], [], 0, 0, 0, 0⟩ [0, 0] =
      .error ("invalid pcm, atleast 4samples, actual " ++ toString (2 / 2 / 1) ++ "samples") :=
  C7_few_samples_error ⟨1, 16000, 24000, [], [], 0, 0, 0, 0⟩ [0, 0]
    (by decide) (by decide) (by decide) (by decide)

/-- C8: a resampler built by `NewGoResampler` with equal input and output
rates passes any well-shaped non-empty buffer through byte-for-byte, with
no error and the state unchanged. -/
theorem C8_equal_rates_passthrough (channels sampleRate : ℤ) (v : audio.GoResampler)
    (hv : audio.NewGoResampler channels sampleRate sampleRate = .ok v)
    (pcm : List ℕ) (hne : pcm.length ≠ 0) (hmod : pcm.length % (2 * v.channels) = 0) :
    audio.GoResampler.Handle v pcm = .ok (v, pcm) := by
  unfold audio.NewGoResampler at hv
  split_ifs at hv
  injection hv with hv
  subst hv
  unfold audio.GoResampler.Handle
  simp_all

/-- Witness for C8: a stereo 24000→24000 resampler on a 4-byte buffer. -/
theorem C8_equal_rates_passthrough_witness :
    audio.GoResampler.Handle ⟨2, 24000, 24000, [], [], 0, 0, 0, 0⟩ [1, 2, 3, 4] =
      .ok (⟨2, 24000, 24000, [], [], 0, 0, 0, 0⟩, [1, 2, 3, 4]) :=
  C8_equal_rates_passthrough 2 24000 ⟨2, 24000, 24000, [], [], 0, 0, 0, 0⟩ rfl
    [1, 2, 3, 4] (by decide) (by decide)

/-! ## C6 — resampler cache and counter invariants -/

namespace audio

/-- Any successful run of the resample loop leaves `consumed` either at its
initial value or in `[1, A]`, where `last = org + A` bounds the sampled
positions. -/
theorem resampleChannelLoop_ok_bounds (ipcm : List ℤ) (org : ℕ) (step : ℚ) (A : ℕ) :
    ∀ (fuel : ℕ) (x : ℚ) (acc : List ℤ) (c0 : ℤ) (out : List ℤ) (c : ℤ),
      resampleChannelLoop ipcm org ((org + A : ℕ) : ℚ) step fuel x acc c0 = .ok (out, c) →
      c = c0 ∨ (1 ≤ c ∧ c ≤ (A : ℤ))
  | 0, x, acc, c0, out, c => by simp [resampleChannelLoop]
  | fuel + 1, x, acc, c0, out, c => by
    intro h
    rw [resampleChannelLoop] at h
    by_cases hx : x < ((org + A : ℕ) : ℚ)
    · rw [if_pos hx] at h
      by_cases hg : 0 ≤ ⌊x⌋ - (org : ℤ) ∧ (⌊x⌋ - (org : ℤ)).toNat + 3 < ipcm.length
      · rw [if_pos hg] at h
        dsimp only [] at h
        have hfloor : ⌊x⌋ < ((org : ℤ) + (A : ℤ)) := by
          have : x < (((org : ℤ) + (A : ℤ) : ℤ) : ℚ) := by push_cast; push_cast at hx; exact hx
          exact Int.floor_lt.mpr this
        rcases hs : spline [((⌊x⌋ : ℤ) : ℚ), ((⌊x⌋ : ℤ) : ℚ) + 1, ((⌊x⌋ : ℤ) : ℚ) + 2,
            ((⌊x⌋ : ℤ) : ℚ) + 3]
            [((ipcm.getD (⌊x⌋ - (org : ℤ)).toNat 0 : ℤ) : ℚ),
             ((ipcm.getD ((⌊x⌋ - (org : ℤ)).toNat + 1) 0 : ℤ) : ℚ),
             ((ipcm.getD ((⌊x⌋ - (org : ℤ)).toNat + 2) 0 : ℤ) : ℚ),
             ((ipcm.getD ((⌊x⌋ - (org : ℤ)).toNat + 3) 0 : ℤ) : ℚ)] [x] [0] with e | yo
        · rw [hs] at h
          exact absurd h (by simp)
        · rw [hs] at h
          rcases resampleChannelLoop_ok_bounds ipcm org step A fuel (x + step)
              (acc ++ [int16OfQ (yo.getD 0 0)]) (⌊x⌋ - (org : ℤ) + 1) out c h with h1 | h1
          · right
            constructor
            · omega
            · omega
          · right
            exact h1
      · rw [if_neg hg] at h
        exact absurd h (by simp)
    · rw [if_neg hx] at h
      left
      exact (((Prod.mk.injEq _ _ _ _).mp ((Except.ok.injEq _ _).mp h)).2).symm

/-- A successful `resampleChannel` consumes a nonnegative count, nothing at
all when the buffer holds at most 16 samples, and never into the trailing
16-sample margin otherwise. -/
theorem resampleChannel_ok_bounds (ipcm : List ℤ) (isr osr written org : ℕ)
    (out : List ℤ) (c : ℤ)
    (h : resampleChannel ipcm isr osr written org = .ok (out, c)) :
    0 ≤ c ∧ (16 < ipcm.length → c ≤ (ipcm.length : ℤ) - 16) ∧
      (ipcm.length ≤ 16 → c = 0) := by
  unfold resampleChannel at h
  by_cases hlen : ipcm.length ≤ 16
  · rw [if_pos hlen] at h
    have hc : c = 0 := (((Prod.mk.injEq _ _ _ _).mp ((Except.ok.injEq _ _).mp h)).2).symm
    omega
  · rw [if_neg hlen] at h
    have hA : org + (ipcm.length - 16) = org + ipcm.length - 16 := by omega
    rcases resampleChannelLoop_ok_bounds ipcm org ((isr : ℚ) / (osr : ℚ))
        (ipcm.length - 16) _ _ _ _ out c h with h1 | h1
    · omega
    · have : ((ipcm.length - 16 : ℕ) : ℤ) = (ipcm.length : ℤ) - 16 := by omega
      omega

end audio

/-- C6 counterexample: a fresh mono 12000→24000 resampler handed 17 samples
(34 bytes) succeeds and leaves a 16-sample cache — not fewer than 16
samples as claimed (the source's own comment reads "Always cache
16samples"). -/
theorem C6_cache_counterexample :
    ((audio.GoResampler.Handle ⟨1, 12000, 24000, [], [], 0, 0, 0, 0⟩
        (List.replicate 34 0)).toOption.map fun p => p.1.lcache.length) = some 16 ∧
      ¬ (16 < 16) := by
  constructor
  · with_unfolding_all decide
  · decide

/-- C6 amended: after every successful `Handle` call with `isr ≠ osr`, each
per-channel tail cache holds at least `min 16 n` samples, where `n` is that
channel's buffered input (previous cache plus the samples extracted from
this call's buffer) — in particular at least 16 whenever more than 16
samples were buffered — and the per-channel (written, consumed) counters
never decrease. -/
theorem C6_cache_lower_bound_and_monotone_counters (v v' : audio.GoResampler)
    (pcm npcm : List ℕ)
    (hok : audio.GoResampler.Handle v pcm = .ok (v', npcm)) (hne : v.isr ≠ v.osr) :
    min 16 (v.lcache ++ (audio.resampleInitChannel pcm v.channels 0).getD []).length ≤
        v'.lcache.length ∧
      min 16 (v.rcache ++ (audio.resampleInitChannel pcm v.channels 1).getD []).length ≤
        v'.rcache.length ∧
      v.lws ≤ v'.lws ∧ v.lcs ≤ v'.lcs ∧ v.rws ≤ v'.rws ∧ v.rcs ≤ v'.rcs := by
  unfold audio.GoResampler.Handle at hok
  by_cases h0 : pcm.length = 0
  · rw [if_pos h0] at hok
    exact absurd hok (by simp)
  rw [if_neg h0] at hok
  by_cases h1 : pcm.length % (2 * v.channels) ≠ 0
  · rw [if_pos h1] at hok
    exact absurd hok (by simp)
  rw [if_neg h1, if_neg hne] at hok
  by_cases h2 : pcm.length / 2 / v.channels < 4
  · rw [if_pos h2] at hok
    exact absurd hok (by simp)
  rw [if_neg h2] at hok
  rcases hL : audio.resampleInitChannel pcm v.channels 0 with _ | lraw
  · rw [hL] at hok
    simp at hok
  rcases hR : audio.resampleInitChannel pcm v.channels 1 with _ | rraw
  all_goals rw [hL, hR] at hok
  all_goals dsimp only [] at hok
  · -- mono
    rw [if_neg (by simp)] at hok
    rcases hresL : audio.resampleChannel (v.lcache ++ lraw) v.isr v.osr v.lws v.lcs
      with e | ⟨opcmLeft, consumedL⟩
    · rw [hresL] at hok
      exact absurd hok (by simp)
    rw [hresL] at hok
    have hbL := audio.resampleChannel_ok_bounds (v.lcache ++ lraw) v.isr v.osr
      v.lws v.lcs opcmLeft consumedL hresL
    have hv' := ((Prod.mk.injEq _ _ _ _).mp ((Except.ok.injEq _ _).mp hok)).1
    subst hv'
    refine ⟨?_, ?_, by simp, by simp, by simp, by simp⟩
    · simp only [Option.getD_some]
      split
      · next hlt =>
        rw [List.length_drop]
        simp only [List.length_append] at hlt hbL ⊢
        omega
      · next hge =>
        simp only [List.length_nil, List.length_append] at hbL ⊢
        simp only [List.length_append, not_lt] at hge
        omega
    · simp only [Option.getD_none, List.append_nil]
      omega
  · -- stereo
    by_cases hlen : lraw.length ≠ rraw.length
    · rw [if_pos (by simpa using hlen)] at hok
      exact absurd hok (by simp)
    rw [if_neg (by simpa using hlen)] at hok
    rcases hresL : audio.resampleChannel (v.lcache ++ lraw) v.isr v.osr v.lws v.lcs
      with e | ⟨opcmLeft, consumedL⟩
    · rw [hresL] at hok
      exact absurd hok (by simp)
    rw [hresL] at hok
    dsimp only [] at hok
    rcases hresR : audio.resampleChannel (v.rcache ++ rraw) v.isr v.osr v.rws v.rcs
      with e | ⟨opcmRight, consumedR⟩
    · rw [hresR] at hok
      exact absurd hok (by simp)
    rw [hresR] at hok
    have hbL := audio.resampleChannel_ok_bounds (v.lcache ++ lraw) v.isr v.osr
      v.lws v.lcs opcmLeft consumedL hresL
    have hbR := audio.resampleChannel_ok_bounds (v.rcache ++ rraw) v.isr v.osr
      v.rws v.rcs opcmRight consumedR hresR
    have hv' := ((Prod.mk.injEq _ _ _ _).mp ((Except.ok.injEq _ _).mp hok)).1
    subst hv'
    refine ⟨?_, ?_, by simp, by simp, by simp, by simp⟩
    · simp only [Option.getD_some]
      split
      · next hlt =>
        rw [List.length_drop]
        simp only [List.length_append] at hlt hbL ⊢
        omega
      · next hge =>
        simp only [List.length_nil, List.length_append] at hbL ⊢
        simp only [List.length_append, not_lt] at hge
        omega
    · simp only [Option.getD_some]
      split
      · next hlt =>
        rw [List.length_drop]
        simp only [List.length_append] at hlt hbR ⊢
        omega
      · next hge =>
        simp only [List.length_nil, List.length_append] at hbR ⊢
        simp only [List.length_append, not_lt] at hge
        omega

/-- C6 witness: the amended bound instantiated on a fresh mono 12000→24000
resampler fed 17 samples (34 bytes); `Handle` succeeds, the cache keeps
exactly `min 16 17 = 16` samples and every counter is ≥ its start value. -/
theorem C6_cache_lower_bound_witness :
    audio.GoResampler.Handle ⟨1, 12000, 24000, [], [], 0, 0, 0, 0⟩
        (List.replicate 34 0) =
      .ok (⟨1, 12000, 24000, List.replicate 16 0, [], 2, 0, 1, 0⟩,
        List.replicate 4 0) ∧
    (min 16 (([] : List ℤ) ++
        (audio.resampleInitChannel (List.replicate 34 0) 1 0).getD []).length ≤
      (List.replicate (16 : ℕ) (0 : ℤ)).length ∧
     min 16 (([] : List ℤ) ++
        (audio.resampleInitChannel (List.replicate 34 0) 1 1).getD []).length ≤
      ([] : List ℤ).length ∧
     (0 : ℕ) ≤ 2 ∧ (0 : ℕ) ≤ 1 ∧ (0 : ℕ) ≤ 0 ∧ (0 : ℕ) ≤ 0) := by
  have hh : audio.GoResampler.Handle ⟨1, 12000, 24000, [], [], 0, 0, 0, 0⟩
      (List.replicate 34 0) =
      .ok (⟨1, 12000, 24000, List.replicate 16 0, [], 2, 0, 1, 0⟩,
        List.replicate 4 0) := by
    with_unfolding_all rfl
  exact ⟨hh, C6_cache_lower_bound_and_monotone_counters _ _ _ _ hh (by decide)⟩

/-- The frame loop visits offsets `i, i + chunk, …`; when the input length
is exactly `i + n * chunk` it emits exactly `n` frames, the `k`-th encoded
from the chunk starting at `i + k * chunk`. -/
theorem audio.parseFramesLoop_eq_range (encode : List ℤ → List ℕ) (d : List ℤ)
    (chunk : ℕ) (hc : 0 < chunk) :
    ∀ n fuel i, d.length = i + n * chunk → n + 1 ≤ fuel →
      audio.parseFramesLoop encode d chunk fuel i =
        (List.range n).map fun k => encode ((d.drop (i + k * chunk)).take chunk) := by
  intro n
  induction n with
  | zero =>
    intro fuel i hlen hfuel
    cases fuel with
    | zero => omega
    | succ f =>
      show (if i < d.length then _ else []) = _
      rw [if_neg (by omega)]
      simp
  | succ n ih =>
    intro fuel i hlen hfuel
    cases fuel with
    | zero => omega
    | succ f =>
      have hmul : (n + 1) * chunk = n * chunk + chunk := by ring
      show (if i < d.length then _ else []) = _
      rw [if_pos (by omega)]
      rw [ih f (i + chunk) (by omega) (by omega)]
      rw [List.range_succ_eq_map]
      simp only [List.map_cons, List.map_map, Function.comp]
      congr 1
      · simp
      · refine List.map_congr_left fun k _ => ?_
        have h3 : i + chunk + k * chunk = i + Nat.succ k * chunk := by
          rw [Nat.succ_mul]; omega
        rw [h3]
        rfl

/-- C5: on the upstream-to-device path, with `chunk = frame_duration · 24000
/ 1000 > 0` and `buffered` the leftover plus the decoded gain-adjusted
input, `parseFrames` emits exactly `buffered.length / chunk` frames in
order, the `k`-th encoded from the `chunk` consecutive samples starting at
offset `k · chunk`, and the new leftover is the trailing
`buffered.length % chunk` samples — always fewer than `chunk`. -/
theorem C5_parseFrames_chunking (encode : List ℤ → List ℕ)
    (c : audio.Converter) (audioDelta : List ℕ) (buffered : List ℤ) (chunk : ℕ)
    (hbuf : buffered = c.delta ++ audio.gain (audio.bytesToInt16 audioDelta) 8)
    (hchunk : (chunk : ℤ) = c.DownDuration * c.DownSampleRate / 1000)
    (hpos : 0 < chunk) :
    audio.Converter.parseFrames encode c audioDelta =
      ({ c with delta := buffered.drop (chunk * (buffered.length / chunk)) },
        (List.range (buffered.length / chunk)).map
          fun k => encode ((buffered.drop (k * chunk)).take chunk)) ∧
      (buffered.drop (chunk * (buffered.length / chunk))).length =
        buffered.length % chunk ∧
      buffered.length % chunk < chunk := by
  have hdm := Nat.div_add_mod buffered.length chunk
  have hmc : (buffered.length / chunk) * chunk = chunk * (buffered.length / chunk) :=
    Nat.mul_comm _ _
  refine ⟨?_, by rw [List.length_drop]; omega, Nat.mod_lt _ hpos⟩
  unfold audio.Converter.parseFrames
  rw [← hbuf, ← hchunk]
  dsimp only []
  rw [← Int.natCast_mod, Int.toNat_natCast, Int.toNat_natCast]
  by_cases hmod : buffered.length % chunk = 0
  · rw [if_neg (not_not_intro (by exact_mod_cast hmod)),
      if_neg (not_not_intro (by exact_mod_cast hmod))]
    have hlen : buffered.length = 0 + (buffered.length / chunk) * chunk := by omega
    rw [audio.parseFramesLoop_eq_range encode buffered chunk hpos
      (buffered.length / chunk) (buffered.length + 1) 0 hlen
      (Nat.succ_le_succ (Nat.div_le_self _ _))]
    have hdropnil : buffered.drop (chunk * (buffered.length / chunk)) = [] := by
      rw [show chunk * (buffered.length / chunk) = buffered.length by omega]
      exact List.drop_length buffered
    rw [hdropnil]
    simp
  · have hne : ((buffered.length % chunk : ℕ) : ℤ) ≠ 0 := by exact_mod_cast hmod
    rw [if_pos hne, if_pos hne]
    have hsub : buffered.length - buffered.length % chunk =
        chunk * (buffered.length / chunk) := by omega
    rw [hsub]
    have htake : chunk * (buffered.length / chunk) ≤ buffered.length := by omega
    have htlen : (buffered.take (chunk * (buffered.length / chunk))).length =
        0 + (buffered.length / chunk) * chunk := by
      rw [List.length_take]
      omega
    rw [audio.parseFramesLoop_eq_range encode _ chunk hpos
      (buffered.length / chunk) _ 0 htlen
      (by
        rw [htlen]
        have := Nat.le_mul_of_pos_right (buffered.length / chunk) hpos
        omega)]
    refine congrArg₂ Prod.mk rfl ?_
    refine List.map_congr_left fun k hk => ?_
    rw [List.mem_range] at hk
    have hkc : k * chunk = chunk * k := Nat.mul_comm _ _
    have h2 : chunk * (buffered.length / chunk) - k * chunk =
        chunk * (buffered.length / chunk - k) := by
      rw [Nat.mul_sub]
      omega
    have h1 : chunk ≤ chunk * (buffered.length / chunk) - k * chunk := by
      rw [h2]
      exact Nat.le_mul_of_pos_right chunk (by omega)
    rw [Nat.zero_add, List.drop_take, List.take_take, min_eq_left h1]

/-- A concrete converter as `NewConverter 24000 1 1 240` builds it
(`DownSampleRate = 24000`, `DownDuration = frameDuration = 1`, so one chunk
is `1 · 24000 / 1000 = 24` samples). -/
def converter24 : audio.Converter :=
  ⟨24000, 24000, 1, 240, 1, 1, ⟨1, 24000, 24000, [], [], 0, 0, 0, 0⟩,
    ⟨1, 24000, 24000, [], [], 0, 0, 0, 0⟩, []⟩

/-- C5 witness: 100 delta bytes (50 samples) against chunk 24 yield the two
full frames `⌊50 / 24⌋ = 2` in order and keep the trailing `50 % 24 = 2`
samples as leftover. -/
theorem C5_parseFrames_chunking_witness :
    (List.replicate 50 (0 : ℤ) =
      converter24.delta ++
        audio.gain (audio.bytesToInt16 (List.replicate 100 0)) 8) ∧
    ((24 : ℤ) = converter24.DownDuration * converter24.DownSampleRate / 1000) ∧
    (0 : ℕ) < 24 ∧
    (audio.Converter.parseFrames (fun _ => []) converter24 (List.replicate 100 0) =
      ({ converter24 with delta := (List.replicate 50 (0 : ℤ)).drop (24 * ((List.replicate 50 (0 : ℤ)).length / 24)) },
        (List.range ((List.replicate 50 (0 : ℤ)).length / 24)).map
          fun k => (fun _ => ([] : List ℕ))
            (((List.replicate 50 (0 : ℤ)).drop (k * 24)).take 24)) ∧
      ((List.replicate 50 (0 : ℤ)).drop
          (24 * ((List.replicate 50 (0 : ℤ)).length / 24))).length =
        (List.replicate 50 (0 : ℤ)).length % 24 ∧
      (List.replicate 50 (0 : ℤ)).length % 24 < 24) := by
  have hb : List.replicate 50 (0 : ℤ) =
      converter24.delta ++
        audio.gain (audio.bytesToInt16 (List.replicate 100 0)) 8 := by
    with_unfolding_all decide
  have hc : (24 : ℤ) = converter24.DownDuration * converter24.DownSampleRate / 1000 := by
    decide
  exact ⟨hb, hc, by decide,
    C5_parseFrames_chunking (fun _ => []) converter24 (List.replicate 100 0)
      (List.replicate 50 0) 24 hb hc (by decide)⟩

/-- C9 counterexample: marshalling the `response.cancelled` variant and
unmarshalling the result fails — `UnmarshalServerEvent`'s switch has no
case for that type tag, so it is rejected as unknown. -/
theorem C9_responseCancelled_counterexample :
    openai.UnmarshalServerEvent
        (openai.MarshalServerEvent "evt_1" (.responseCancelled ⟨"", ""⟩)).2 =
      .error "unknown server event type: response.cancelled" := by
  simpa only [openai.MarshalServerEvent, openai.ServerEvent.withBase,
      openai.ServerEvent.base, openai.ServerEvent.canonicalType, openai.setBaseEventType]
    using openai.rt_responseCancelled_fails (if ("" : String) = "" then "evt_1" else "")

/-- C9 amended: for every server event variant other than
`response.cancelled`, and payloads that Go's encoders represent faithfully
(`session.tool_choice` absent, `response.status_details` not an explicit
JSON null), unmarshalling the marshalled bytes returns exactly the stamped
event that `MarshalServerEvent` produced. -/
theorem C9_marshal_unmarshal_roundtrip (fresh : String) (e : openai.ServerEvent)
    (hwf : e.WF) (hnc : ¬ e.isCancelled) :
    openai.UnmarshalServerEvent (openai.MarshalServerEvent fresh e).2 =
      .ok (openai.MarshalServerEvent fresh e).1 := by
  cases e with
  | error b a1 =>
    simpa only [openai.MarshalServerEvent, openai.ServerEvent.withBase,
        openai.ServerEvent.base, openai.ServerEvent.canonicalType, openai.setBaseEventType]
      using openai.rt_error _ a1
  | sessionCreated b a1 =>
    simpa only [openai.MarshalServerEvent, openai.ServerEvent.withBase,
        openai.ServerEvent.base, openai.ServerEvent.canonicalType, openai.setBaseEventType]
      using openai.rt_sessionCreated _ a1 hwf
  | sessionUpdated b a1 =>
    simpa only [openai.MarshalServerEvent, openai.ServerEvent.withBase,
        openai.ServerEvent.base, openai.ServerEvent.canonicalType, openai.setBaseEventType]
      using openai.rt_sessionUpdated _ a1 hwf
  | conversationCreated b a1 =>
    simpa only [openai.MarshalServerEvent, openai.ServerEvent.withBase,
        openai.ServerEvent.base, openai.ServerEvent.canonicalType, openai.setBaseEventType]
      using openai.rt_conversationCreated _ a1
  | inputAudioBufferCommitted b a1 a2 =>
    simpa only [openai.MarshalServerEvent, openai.ServerEvent.withBase,
        openai.ServerEvent.base, openai.ServerEvent.canonicalType, openai.setBaseEventType]
      using openai.rt_inputAudioBufferCommitted _ a1 a2
  | inputAudioBufferCleared b =>
    simpa only [openai.MarshalServerEvent, openai.ServerEvent.withBase,
        openai.ServerEvent.base, openai.ServerEvent.canonicalType, openai.setBaseEventType]
      using openai.rt_inputAudioBufferCleared _
  | inputAudioBufferSpeechStarted b a1 a2 =>
    simpa only [openai.MarshalServerEvent, openai.ServerEvent.withBase,
        openai.ServerEvent.base, openai.ServerEvent.canonicalType, openai.setBaseEventType]
      using openai.rt_inputAudioBufferSpeechStarted _ a1 a2
  | inputAudioBufferSpeechStopped b a1 a2 =>
    simpa only [openai.MarshalServerEvent, openai.ServerEvent.withBase,
        openai.ServerEvent.base, openai.ServerEvent.canonicalType, openai.setBaseEventType]
      using openai.rt_inputAudioBufferSpeechStopped _ a1 a2
  | conversationItemCreated b a1 a2 =>
    simpa only [openai.MarshalServerEvent, openai.ServerEvent.withBase,
        openai.ServerEvent.base, openai.ServerEvent.canonicalType, openai.setBaseEventType]
      using openai.rt_conversationItemCreated _ a1 a2
  | conversationItemInputAudioTranscriptionCompleted b a1 a2 a3 =>
    simpa only [openai.MarshalServerEvent, openai.ServerEvent.withBase,
        openai.ServerEvent.base, openai.ServerEvent.canonicalType, openai.setBaseEventType]
      using openai.rt_conversationItemIATCompleted _ a1 a2 a3
  | conversationItemInputAudioTranscriptionFailed b a1 a2 a3 =>
    simpa only [openai.MarshalServerEvent, openai.ServerEvent.withBase,
        openai.ServerEvent.base, openai.ServerEvent.canonicalType, openai.setBaseEventType]
      using openai.rt_conversationItemIATFailed _ a1 a2 a3
  | conversationItemTruncated b a1 a2 a3 =>
    simpa only [openai.MarshalServerEvent, openai.ServerEvent.withBase,
        openai.ServerEvent.base, openai.ServerEvent.canonicalType, openai.setBaseEventType]
      using openai.rt_conversationItemTruncated _ a1 a2 a3
  | conversationItemDeleted b a1 =>
    simpa only [openai.MarshalServerEvent, openai.ServerEvent.withBase,
        openai.ServerEvent.base, openai.ServerEvent.canonicalType, openai.setBaseEventType]
      using openai.rt_conversationItemDeleted _ a1
  | responseCreated b a1 =>
    simpa only [openai.MarshalServerEvent, openai.ServerEvent.withBase,
        openai.ServerEvent.base, openai.ServerEvent.canonicalType, openai.setBaseEventType]
      using openai.rt_responseCreated _ a1 hwf
  | responseCancelled b => exact absurd trivial hnc
  | responseDone b a1 =>
    simpa only [openai.MarshalServerEvent, openai.ServerEvent.withBase,
        openai.ServerEvent.base, openai.ServerEvent.canonicalType, openai.setBaseEventType]
      using openai.rt_responseDone _ a1 hwf
  | responseOutputItemAdded b a1 a2 a3 =>
    simpa only [openai.MarshalServerEvent, openai.ServerEvent.withBase,
        openai.ServerEvent.base, openai.ServerEvent.canonicalType, openai.setBaseEventType]
      using openai.rt_responseOutputItemAdded _ a1 a2 a3
  | responseOutputItemDone b a1 a2 a3 =>
    simpa only [openai.MarshalServerEvent, openai.ServerEvent.withBase,
        openai.ServerEvent.base, openai.ServerEvent.canonicalType, openai.setBaseEventType]
      using openai.rt_responseOutputItemDone _ a1 a2 a3
  | responseContentPartAdded b a1 a2 a3 a4 a5 =>
    simpa only [openai.MarshalServerEvent, openai.ServerEvent.withBase,
        openai.ServerEvent.base, openai.ServerEvent.canonicalType, openai.setBaseEventType]
      using openai.rt_responseContentPartAdded _ a1 a2 a3 a4 a5
  | responseContentPartDone b a1 a2 a3 a4 a5 =>
    simpa only [openai.MarshalServerEvent, openai.ServerEvent.withBase,
        openai.ServerEvent.base, openai.ServerEvent.canonicalType, openai.setBaseEventType]
      using openai.rt_responseContentPartDone _ a1 a2 a3 a4 a5
  | responseTextDelta b a1 a2 a3 a4 a5 =>
    simpa only [openai.MarshalServerEvent, openai.ServerEvent.withBase,
        openai.ServerEvent.base, openai.ServerEvent.canonicalType, openai.setBaseEventType]
      using openai.rt_responseTextDelta _ a1 a2 a3 a4 a5
  | responseTextDone b a1 a2 a3 a4 a5 =>
    simpa only [openai.MarshalServerEvent, openai.ServerEvent.withBase,
        openai.ServerEvent.base, openai.ServerEvent.canonicalType, openai.setBaseEventType]
      using openai.rt_responseTextDone _ a1 a2 a3 a4 a5
  | responseAudioTranscriptDelta b a1 a2 a3 a4 a5 =>
    simpa only [openai.MarshalServerEvent, openai.ServerEvent.withBase,
        openai.ServerEvent.base, openai.ServerEvent.canonicalType, openai.setBaseEventType]
      using openai.rt_responseAudioTranscriptDelta _ a1 a2 a3 a4 a5
  | responseAudioTranscriptDone b a1 a2 a3 a4 a5 =>
    simpa only [openai.MarshalServerEvent, openai.ServerEvent.withBase,
        openai.ServerEvent.base, openai.ServerEvent.canonicalType, openai.setBaseEventType]
      using openai.rt_responseAudioTranscriptDone _ a1 a2 a3 a4 a5
  | responseAudioDelta b a1 a2 a3 a4 a5 =>
    simpa only [openai.MarshalServerEvent, openai.ServerEvent.withBase,
        openai.ServerEvent.base, openai.ServerEvent.canonicalType, openai.setBaseEventType]
      using openai.rt_responseAudioDelta _ a1 a2 a3 a4 a5
  | responseAudioDone b a1 a2 a3 a4 =>
    simpa only [openai.MarshalServerEvent, openai.ServerEvent.withBase,
        openai.ServerEvent.base, openai.ServerEvent.canonicalType, openai.setBaseEventType]
      using openai.rt_responseAudioDone _ a1 a2 a3 a4
  | responseFunctionCallArgumentsDelta b a1 a2 a3 a4 a5 =>
    simpa only [openai.MarshalServerEvent, openai.ServerEvent.withBase,
        openai.ServerEvent.base, openai.ServerEvent.canonicalType, openai.setBaseEventType]
      using openai.rt_responseFCADelta _ a1 a2 a3 a4 a5
  | responseFunctionCallArgumentsDone b a1 a2 a3 a4 a5 a6 =>
    simpa only [openai.MarshalServerEvent, openai.ServerEvent.withBase,
        openai.ServerEvent.base, openai.ServerEvent.canonicalType, openai.setBaseEventType]
      using openai.rt_responseFCADone _ a1 a2 a3 a4 a5 a6
  | rateLimitsUpdated b a1 =>
    simpa only [openai.MarshalServerEvent, openai.ServerEvent.withBase,
        openai.ServerEvent.base, openai.ServerEvent.canonicalType, openai.setBaseEventType]
      using openai.rt_rateLimitsUpdated _ a1

/-- C9 witness: the round-trip instantiated on an
`input_audio_buffer.cleared` event with empty base; marshalling stamps
`(evt_42, input_audio_buffer.cleared)` and unmarshalling returns that
stamped event. -/
theorem C9_marshal_unmarshal_roundtrip_witness :
    openai.ServerEvent.WF (.inputAudioBufferCleared ⟨"", ""⟩) ∧
    ¬ openai.ServerEvent.isCancelled (.inputAudioBufferCleared ⟨"", ""⟩) ∧
    openai.UnmarshalServerEvent
        (openai.MarshalServerEvent "evt_42" (.inputAudioBufferCleared ⟨"", ""⟩)).2 =
      .ok (openai.MarshalServerEvent "evt_42" (.inputAudioBufferCleared ⟨"", ""⟩)).1 :=
  ⟨trivial, fun h => h,
    C9_marshal_unmarshal_roundtrip "evt_42" (.inputAudioBufferCleared ⟨"", ""⟩)
      trivial (fun h => h)⟩

/-- C10 counterexample: the input `null` is non-empty and not a JSON
object, yet `UnmarshalJSON` stores it in neither field (the decode into
`Function` succeeds as a no-op, so both fields keep their old values); and
the non-empty input consisting of the single byte `"` makes the quote-strip
branch index an empty slice — a panic, not a nil return. -/
theorem C10_null_counterexample :
    openai.ServerToolChoice.unmarshalJSONBytes
        ⟨"prev", ⟨"function", ⟨"fn"⟩⟩⟩ "null".toList =
      .ok (⟨"prev", ⟨"function", ⟨"fn"⟩⟩⟩, none) ∧
    ("prev" : String) ≠ "null" ∧
    openai.ServerToolChoice.unmarshalJSONBytes openai.ServerToolChoice.zero ['"'] =
      .error "panic: runtime error: index out of range" := by
  refine ⟨?_, by decide, ?_⟩
  · rfl
  · rfl

/-- C10 amended: for non-empty input other than the single byte `"`,
`UnmarshalJSON` returns nil; input parsing as JSON `null` leaves the
receiver unchanged, input parsing as a JSON object that decodes into a
`ToolChoice` updates `Function` (leaving `String` untouched), and input on
which the decode fails has at most one leading and one trailing quote
stripped into `String` with `Function` zeroed. -/
theorem C10_tool_choice_unmarshal (m : openai.ServerToolChoice) (data : List Char)
    (h0 : data ≠ []) (h1 : data ≠ ['"']) :
    (∃ r, openai.ServerToolChoice.unmarshalJSONBytes m data = .ok (r, none)) ∧
    (openai.goJsonParse data = .ok .null →
      openai.ServerToolChoice.unmarshalJSONBytes m data = .ok (m, none)) ∧
    (∀ kvs f, openai.goJsonParse data = .ok (.obj kvs) →
      openai.goDecToolChoice m.Function (.obj kvs) = .ok f →
      openai.ServerToolChoice.unmarshalJSONBytes m data =
        .ok ({ m with Function := f }, none)) ∧
    (∀ e, openai.goUnmarshalToolChoice m.Function data = .error e →
      openai.ServerToolChoice.unmarshalJSONBytes m data =
        .ok (⟨String.mk (openai.stripQuotes data), openai.ToolChoice.zero⟩, none)) := by
  cases hu : openai.goUnmarshalToolChoice m.Function data with
  | ok f =>
    have hres : openai.ServerToolChoice.unmarshalJSONBytes m data =
        .ok ({ m with Function := f }, none) := by
      simp only [openai.ServerToolChoice.unmarshalJSONBytes, hu]
    refine ⟨⟨{ m with Function := f }, hres⟩, ?_, ?_, ?_⟩
    · intro hnull
      have heq : openai.goUnmarshalToolChoice m.Function data = .ok m.Function := by
        simp only [openai.goUnmarshalToolChoice, hnull, openai.goDecToolChoice]
      have hf := (Except.ok.injEq _ _).mp (heq.symm.trans hu)
      rw [hres, ← hf]
    · intro kvs f' hparse hdec
      have heq : openai.goUnmarshalToolChoice m.Function data = .ok f' := by
        simp only [openai.goUnmarshalToolChoice, hparse, hdec]
      have hf := (Except.ok.injEq _ _).mp (hu.symm.trans heq)
      rw [hres, hf]
    · intro e he
      exact absurd he (by simp)
  | error e0 =>
    have hres : openai.ServerToolChoice.unmarshalJSONBytes m data =
        .ok (⟨String.mk (openai.stripQuotes data), openai.ToolChoice.zero⟩, none) := by
      cases data with
      | nil => exact absurd rfl h0
      | cons c rest =>
        by_cases hc : c = '"'
        · subst hc
          cases rest with
          | nil => exact absurd rfl h1
          | cons d rs =>
            simp only [openai.ServerToolChoice.unmarshalJSONBytes, hu]
            rfl
        · simp only [openai.ServerToolChoice.unmarshalJSONBytes, hu]
          simp only [openai.stripQuotes, List.head?_cons, Option.some.injEq,
            if_neg hc, List.tail_cons]
    refine ⟨⟨_, hres⟩, ?_, ?_, fun e _ => hres⟩
    · intro hnull
      have heq : openai.goUnmarshalToolChoice m.Function data = .ok m.Function := by
        simp only [openai.goUnmarshalToolChoice, hnull, openai.goDecToolChoice]
      exact absurd (hu.symm.trans heq) (by simp)
    · intro kvs f' hparse hdec
      have heq : openai.goUnmarshalToolChoice m.Function data = .ok f' := by
        simp only [openai.goUnmarshalToolChoice, hparse, hdec]
      exact absurd (hu.symm.trans heq) (by simp)

/-- C10 witness: the amended behaviour on the quoted string input
`"auto"` — non-empty, more than a lone quote — which returns nil. -/
theorem C10_tool_choice_unmarshal_witness :
    ("\"auto\"".toList ≠ ([] : List Char)) ∧
    ("\"auto\"".toList ≠ ['"']) ∧
    (∃ r, openai.ServerToolChoice.unmarshalJSONBytes openai.ServerToolChoice.zero
        "\"auto\"".toList = .ok (r, none)) :=
  ⟨by decide, by decide,
    (C10_tool_choice_unmarshal openai.ServerToolChoice.zero "\"auto\"".toList
      (by decide) (by decide)).1⟩
